import Mathlib

/-! IMG_webp.c, the WEBP loading framework of SDL_image.

A shallow embedding of `src/IMG_webp.c` (the `LOAD_WEBP` build) and the
properties of its format probe, its two decode entry points and its
library reference count.

Conventions of the embedding

* A pointer that may be `NULL` is an `Option`.
* `Uint8` values are natural numbers; `Sint64` and `int` values are integers;
  `size_t` values are natural numbers below `2 ^ 64`, and the conversion of a
  signed value to `size_t` is written out (`size_t_cast`).
* The SDL stream, the allocator, the surface constructor and the libwebp
  entry points reached through `lib.*` are not part of the file.  The stream
  is a byte sequence with a read position and a reported total size; the
  other collaborators are the fields of an environment `Env`, so every
  theorem holds for whatever they answer.
* Calls whose only effect is on memory (`SDL_free`, `SDL_DestroySurface`, ...)
  are recorded, in program order, in a list of `Event`s.
-/

namespace IMG_webp

/-! ## The byte stream -/

/-- The state of a seekable `SDL_IOStream`: the bytes it holds, the current
read position, and the value its size query reports (not positive when the
size cannot be determined). -/
structure SDL_IOStream where
  data : List Nat
  pos : Nat
  size : Int
deriving DecidableEq

/-- The call `SDL_TellIO(src)`: the current position. -/
def SDL_TellIO (s : SDL_IOStream) : Int := (s.pos : Int)

/-- The call `SDL_ReadIO(src, buf, n)`: copies up to `n` bytes from the current position
and advances the position by the number of bytes copied; the return value of
the C function is the length of the list returned here. -/
def SDL_ReadIO (s : SDL_IOStream) (n : Nat) : List Nat × SDL_IOStream :=
  let bytes := (s.data.drop s.pos).take n
  (bytes, { s with pos := s.pos + bytes.length })

/-- The call `SDL_SeekIO(src, offset, SDL_IO_SEEK_SET)`: moves the position to `offset`;
a negative offset is refused and leaves the stream where it is. -/
def SDL_SeekIO (s : SDL_IOStream) (offset : Int) : SDL_IOStream :=
  if offset < 0 then s else { s with pos := offset.toNat }

/-- The call `SDL_GetIOSize(src)`: the total size the stream reports. -/
def SDL_GetIOSize (s : SDL_IOStream) : Int := s.size

/-- The conversion `(size_t)x` of a signed 64-bit value, `size_t` being 64 bits wide. -/
def size_t_cast (x : Int) : Nat := (x % (2 : Int) ^ 64).toNat

/-- The value of `(size_t)-1`, to which both loaders set `raw_data_size`
before the probe. -/
def SIZE_MAX : Nat := 2 ^ 64 - 1

/-! ## webp_getinfo and IMG_isWEBP -/

/-- The comparison of the twelve tested bytes of `magic[20]` in `webp_getinfo`;
`m[i]` is `m.getD i 0`. -/
def magic_matches (m : List Nat) : Bool :=
  m.getD 0 0 == 'R'.toNat &&
  m.getD 1 0 == 'I'.toNat &&
  m.getD 2 0 == 'F'.toNat &&
  m.getD 3 0 == 'F'.toNat &&
  m.getD 8 0 == 'W'.toNat &&
  m.getD 9 0 == 'E'.toNat &&
  m.getD 10 0 == 'B'.toNat &&
  m.getD 11 0 == 'P'.toNat &&
  m.getD 12 0 == 'V'.toNat &&
  m.getD 13 0 == 'P'.toNat &&
  m.getD 14 0 == '8'.toNat &&
  (m.getD 15 0 == ' '.toNat || m.getD 15 0 == 'X'.toNat || m.getD 15 0 == 'L'.toNat)

/-- What `webp_getinfo` leaves behind: its return value, the content of
`*datasize` (`none` when the pointer is `NULL`) and the stream. -/
structure GetInfoResult where
  is_WEBP : Bool
  datasize : Option Nat
  src : Option SDL_IOStream
deriving DecidableEq

/-- The function `webp_getinfo(src, datasize)`.  The argument `datasize` is `none` for a `NULL` pointer and
`some v` for a pointer to a `size_t` that holds `v` at entry. -/
def webp_getinfo (src : Option SDL_IOStream) (datasize : Option Nat) : GetInfoResult :=
  match src with
  | none => { is_WEBP := false, datasize := datasize, src := none }
  | some s =>
    let start := SDL_TellIO s
    let rd := SDL_ReadIO s 20
    let magic := rd.1
    let s1 := rd.2
    let found : Bool × Option Nat :=
      if magic.length = 20 then
        if magic_matches magic then
          (true,
            match datasize with
            | none => none
            | some _ =>
              let size := SDL_GetIOSize s1
              if size > 0 then some (size_t_cast (size - start)) else some 0)
        else (false, datasize)
      else (false, datasize)
    { is_WEBP := found.1, datasize := found.2, src := some ( SDL_SeekIO s1 start) }

/-- The function `IMG_isWEBP(src)`: the answer of the probe, and the stream after it. -/
def IMG_isWEBP (src : Option SDL_IOStream) : Bool × Option SDL_IOStream :=
  let r := webp_getinfo src none
  (r.is_WEBP, r.src)

/-! ## The collaborators of the decode entry points -/

/-- The two values `format` takes in the loaders. -/
inductive SDL_PixelFormat where
  | SDL_PIXELFORMAT_RGBA32
  | SDL_PIXELFORMAT_RGB24
deriving DecidableEq

/-- The fields of `WebPBitstreamFeatures` the loaders read. -/
structure WebPBitstreamFeatures where
  width : Int
  height : Int
  has_alpha : Bool
deriving DecidableEq

/-- An `SDL_Surface`: `pixels` is `none` until a decode routine has filled
the pixel storage successfully. -/
structure SDL_Surface where
  w : Int
  h : Int
  format : SDL_PixelFormat
  pitch : Int
  pixels : Option (List Nat)
deriving DecidableEq

/-- The fields of `WebPIterator` the animation loader reads after a successful
`WebPDemuxGetFrame`. -/
structure WebPIterator where
  fragment : List Nat
  duration : Int
deriving DecidableEq

/-- A `WebPDemuxer` handle. -/
structure WebPDemuxer where
  handle : Nat
deriving DecidableEq

/-- An `IMG_Animation`; a slot of `frames` that holds no surface is `none`. -/
structure IMG_Animation where
  w : Int
  h : Int
  count : Int
  frames : List (Option SDL_Surface)
  delays : List Int
deriving DecidableEq

/-- The memory effects of a loader call, in program order. -/
inductive Event where
  | malloc_raw_data (size : Nat)
  | free_raw_data
  | create_surface
  | destroy_surface
  | decode_rgba
  | decode_rgb
  | demux_delete
  | free_animation
  | set_error (msg : String)
deriving DecidableEq

/-- Everything the loaders call that lies outside the file.

* `IMG_Init_WEBP`: whether `IMG_Init(IMG_INIT_WEBP) & IMG_INIT_WEBP` is non-zero;
* `SDL_malloc n`: whether the allocation of the `n`-byte payload buffer succeeds;
* `WebPGetFeaturesInternal d`: the features when the status is `VP8_STATUS_OK`;
* `surface_alloc k w h f`: whether the `k`-th `SDL_CreateSurface(w, h, f)` of the
  call succeeds, and `surface_pitch w f` the pitch of the surface it makes;
* `WebPDecodeRGBAInto d n stride`, `WebPDecodeRGBInto d n stride`: the pixels
  written into a buffer of `n` bytes, `none` when the routine returns `NULL`;
* `WebPDemuxInternal d`: the demuxer handle, `none` for `NULL`;
* `WebPDemuxGetI dmux`: the `uint32_t` answer for `WEBP_FF_FRAME_COUNT`;
* `WebPDemuxGetFrame dmux n`: the iterator when the call returns non-zero. -/
structure Env where
  IMG_Init_WEBP : Bool
  SDL_malloc : Nat → Bool
  WebPGetFeaturesInternal : List Nat → Option WebPBitstreamFeatures
  surface_alloc : Nat → Int → Int → SDL_PixelFormat → Bool
  surface_pitch : Int → SDL_PixelFormat → Int
  WebPDecodeRGBAInto : List Nat → Int → Int → Option (List Nat)
  WebPDecodeRGBInto : List Nat → Int → Int → Option (List Nat)
  WebPDemuxInternal : List Nat → Option WebPDemuxer
  WebPDemuxGetI : Option WebPDemuxer → Nat
  WebPDemuxGetFrame : Option WebPDemuxer → Int → Option WebPIterator

/-- The `k`-th `SDL_CreateSurface(w, h, format)` of a call: `NULL`, or a surface
of the requested width, height and format whose pixels are not decoded yet. -/
def SDL_CreateSurface (env : Env) (k : Nat) (w h : Int) (format : SDL_PixelFormat) :
    Option SDL_Surface :=
  if env.surface_alloc k w h format then
    some { w := w, h := h, format := format, pitch := env.surface_pitch w format, pixels := none }
  else none

/-- The choice of `format` from `features.has_alpha`, the same in both loaders. -/
def select_format (features : WebPBitstreamFeatures) : SDL_PixelFormat :=
  if features.has_alpha then SDL_PixelFormat.SDL_PIXELFORMAT_RGBA32
  else SDL_PixelFormat.SDL_PIXELFORMAT_RGB24

/-- The decode call both loaders make on a surface: `WebPDecodeRGBAInto` when
`features.has_alpha`, `WebPDecodeRGBInto` otherwise, with `pitch * h` as buffer
size and `pitch` as stride.  Returns `ret` and the event of the routine called. -/
def decode_into (env : Env) (features : WebPBitstreamFeatures) (data : List Nat)
    (surface : SDL_Surface) : Option (List Nat) × Event :=
  if features.has_alpha then
    (env.WebPDecodeRGBAInto data (surface.pitch * surface.h) surface.pitch, Event.decode_rgba)
  else
    (env.WebPDecodeRGBInto data (surface.pitch * surface.h) surface.pitch, Event.decode_rgb)

/-! ## IMG_LoadWEBP_IO -/

/-- What a call of `IMG_LoadWEBP_IO` leaves behind: the returned surface, the
stream, the message given to `SDL_SetError` and the memory effects. -/
structure LoadResult where
  ret : Option SDL_Surface
  src : Option SDL_IOStream
  error : Option String
  trace : List Event
deriving DecidableEq

/-- The code after the label `error:` of `IMG_LoadWEBP_IO`, entered with the
values `raw_data`, `surface` and `error` have at the `goto`. -/
def IMG_LoadWEBP_IO_error (s : SDL_IOStream) (start : Int) (raw_data : Option (List Nat))
    (surface : Option SDL_Surface) (error : Option String) (tr : List Event) : LoadResult :=
  let tr1 := if raw_data.isSome then tr ++ [Event.free_raw_data] else tr
  let tr2 := if surface.isSome then tr1 ++ [Event.destroy_surface] else tr1
  let tr3 := match error with
    | some msg => tr2 ++ [Event.set_error msg]
    | none => tr2
  { ret := none, src := some ( SDL_SeekIO s start), error := error, trace := tr3 }

/-- The function `IMG_LoadWEBP_IO(src)`, from the `NULL` test of `src` to either
`return surface` or the `goto error` taken. -/
def IMG_LoadWEBP_IO (env : Env) (src : Option SDL_IOStream) : LoadResult :=
  match src with
  | none => { ret := none, src := none, error := none, trace := [] }
  | some s0 =>
    let start := SDL_TellIO s0
    if !env.IMG_Init_WEBP then
      IMG_LoadWEBP_IO_error s0 start none none none []
    else
      let info := webp_getinfo (some s0) (some SIZE_MAX)
      let s1 := info.src.getD s0
      let raw_data_size := info.datasize.getD SIZE_MAX
      if !info.is_WEBP then
        IMG_LoadWEBP_IO_error s1 start none none (some "Invalid WEBP") []
      else if !env.SDL_malloc raw_data_size then
        IMG_LoadWEBP_IO_error s1 start none none
          (some "Failed to allocate enough buffer for WEBP") []
      else
        let tr1 := [Event.malloc_raw_data raw_data_size]
        let rd := SDL_ReadIO s1 raw_data_size
        let raw_data := rd.1
        let s2 := rd.2
        if raw_data.length ≠ raw_data_size then
          IMG_LoadWEBP_IO_error s2 start (some raw_data) none (some "Failed to read WEBP") tr1
        else
          match env.WebPGetFeaturesInternal raw_data with
          | none =>
            IMG_LoadWEBP_IO_error s2 start (some raw_data) none
              (some "WebPGetFeatures has failed") tr1
          | some features =>
            let format := select_format features
            match SDL_CreateSurface env 0 features.width features.height format with
            | none =>
              IMG_LoadWEBP_IO_error s2 start (some raw_data) none
                (some "Failed to allocate SDL_Surface") tr1
            | some surface =>
              let tr2 := tr1 ++ [Event.create_surface]
              let dec := decode_into env features raw_data surface
              let tr3 := tr2 ++ [dec.2]
              match dec.1 with
              | none =>
                IMG_LoadWEBP_IO_error s2 start (some raw_data) (some surface)
                  (some "Failed to decode WEBP") tr3
              | some px =>
                { ret := some { surface with pixels := some px },
                  src := some s2, error := none, trace := tr3 ++ [Event.free_raw_data] }

/-! ## IMG_LoadWEBPAnimation_IO -/

/-- The conversion of the `uint32_t` answer of `WebPDemuxGetI` to the `int`
field `anim->count` (two's complement). -/
def int_of_uint32 (n : Nat) : Int :=
  if n % 2 ^ 32 < 2 ^ 31 then ((n % 2 ^ 32 : Nat) : Int) else ((n % 2 ^ 32 : Nat) : Int) - 2 ^ 32

/-- What a call of `IMG_LoadWEBPAnimation_IO` leaves behind. -/
structure AnimResult where
  ret : Option IMG_Animation
  src : Option SDL_IOStream
  error : Option String
  trace : List Event
deriving DecidableEq

/-- How the frame loop of `IMG_LoadWEBPAnimation_IO` is left: past its end or by
a `break` (`finished`), or by the `goto error` after a failed
`SDL_CreateSurface` (`alloc_failed`). -/
inductive LoopExit where
  | finished (anim : IMG_Animation) (tr : List Event)
  | alloc_failed (anim : IMG_Animation) (tr : List Event)
deriving DecidableEq

/-- The loop `for (frame_idx = 0; frame_idx < anim->count; frame_idx++)`, entered
at `frame_idx` with `remaining = anim->count - frame_idx` iterations to go.
The surface is stored in `frames[frame_idx]` before the decode call, which
then writes through the stored pointer. -/
def frame_loop (env : Env) (features : WebPBitstreamFeatures) (format : SDL_PixelFormat)
    (dmuxer : Option WebPDemuxer) :
    Nat → Nat → IMG_Animation → List Event → LoopExit
  | 0, _, anim, tr => LoopExit.finished anim tr
  | remaining + 1, frame_idx, anim, tr =>
    match env.WebPDemuxGetFrame dmuxer (frame_idx : Int) with
    | none => LoopExit.finished anim tr
    | some iter =>
      match SDL_CreateSurface env frame_idx features.width features.height format with
      | none => LoopExit.alloc_failed anim tr
      | some curr =>
        let anim1 : IMG_Animation :=
          { anim with
            frames := anim.frames.set frame_idx (some curr),
            delays := anim.delays.set frame_idx iter.duration }
        let dec := decode_into env features iter.fragment curr
        let tr1 := tr ++ [Event.create_surface, dec.2]
        match dec.1 with
        | none => LoopExit.finished anim1 tr1
        | some px =>
          frame_loop env features format dmuxer remaining (frame_idx + 1)
            { anim1 with frames := anim1.frames.set frame_idx (some { curr with pixels := some px }) }
            tr1

/-- The statement `if (dmuxer) { lib.WebPDemuxDelete(dmuxer); }`, which both
exits of the animation loader execute. -/
def demux_delete_if (dmuxer : Option WebPDemuxer) (tr : List Event) : List Event :=
  if dmuxer.isSome then tr ++ [Event.demux_delete] else tr

/-- The code after the label `error:` of `IMG_LoadWEBPAnimation_IO`. -/
def IMG_LoadWEBPAnimation_IO_error (s : SDL_IOStream) (start : Int)
    (anim : Option IMG_Animation) (dmuxer : Option WebPDemuxer) (raw_data : Option (List Nat))
    (error : Option String) (tr : List Event) : AnimResult :=
  let tr1 := if anim.isSome then tr ++ [Event.free_animation] else tr
  let tr2 := demux_delete_if dmuxer tr1
  let tr3 := if raw_data.isSome then tr2 ++ [Event.free_raw_data] else tr2
  let tr4 := match error with
    | some msg => tr3 ++ [Event.set_error msg]
    | none => tr3
  { ret := none, src := some ( SDL_SeekIO s start), error := error, trace := tr4 }

/-- The function `IMG_LoadWEBPAnimation_IO(src)`.  The source does not test the results of
the allocations of `anim`, `anim->frames` and `anim->delays`; the embedding
follows the path on which the three succeed, `frames` and `delays` being
`anim->count` zeroed slots (none when the count is negative). -/
def IMG_LoadWEBPAnimation_IO (env : Env) (src : Option SDL_IOStream) : AnimResult :=
  match src with
  | none => { ret := none, src := none, error := none, trace := [] }
  | some s0 =>
    let start := SDL_TellIO s0
    if !env.IMG_Init_WEBP then
      IMG_LoadWEBPAnimation_IO_error s0 start none none none none []
    else
      let info := webp_getinfo (some s0) (some SIZE_MAX)
      let s1 := info.src.getD s0
      let raw_data_size := info.datasize.getD SIZE_MAX
      if !info.is_WEBP then
        IMG_LoadWEBPAnimation_IO_error s1 start none none none
          (some "Invalid WEBP Animation") []
      else if !env.SDL_malloc raw_data_size then
        IMG_LoadWEBPAnimation_IO_error s1 start none none none
          (some "Failed to allocate enough buffer for WEBP Animation") []
      else
        let tr1 := [Event.malloc_raw_data raw_data_size]
        let rd := SDL_ReadIO s1 raw_data_size
        let raw_data := rd.1
        let s2 := rd.2
        if raw_data.length ≠ raw_data_size then
          IMG_LoadWEBPAnimation_IO_error s2 start none none (some raw_data)
            (some "Failed to read WEBP Animation") tr1
        else
          match env.WebPGetFeaturesInternal raw_data with
          | none =>
            IMG_LoadWEBPAnimation_IO_error s2 start none none (some raw_data)
              (some "WebPGetFeatures has failed") tr1
          | some features =>
            let format := select_format features
            let dmuxer := env.WebPDemuxInternal raw_data
            let count := int_of_uint32 (env.WebPDemuxGetI dmuxer)
            let anim : IMG_Animation :=
              { w := features.width, h := features.height, count := count,
                frames := List.replicate count.toNat none,
                delays := List.replicate count.toNat 0 }
            match frame_loop env features format dmuxer count.toNat 0 anim tr1 with
            | LoopExit.alloc_failed anim1 tr2 =>
              IMG_LoadWEBPAnimation_IO_error s2 start (some anim1) dmuxer (some raw_data)
                (some "Failed to allocate SDL_Surface") tr2
            | LoopExit.finished anim1 tr2 =>
              let tr3 := demux_delete_if dmuxer tr2
              { ret := some anim1, src := some s2, error := none,
                trace := tr3 ++ [Event.free_raw_data] }

/-! ## IMG_InitWEBP and IMG_QuitWEBP -/

/-- The value of `raw_data_size` after the probe of either loader. -/
def payload_size (s : SDL_IOStream) : Nat :=
  (webp_getinfo (some s) (some SIZE_MAX)).datasize.getD SIZE_MAX

/-- The bytes the payload read of either loader puts into `raw_data`. -/
def payload (s : SDL_IOStream) : List Nat :=
  ( SDL_ReadIO s (payload_size s)).1

/-- Whether iteration `j` of the frame loop gets its frame and, if it also gets
its surface, a non-null decode result: no fetch and no decode error. -/
def frame_no_error (env : Env) (features : WebPBitstreamFeatures) (dmuxer : Option WebPDemuxer)
    (j : Nat) : Bool :=
  match env.WebPDemuxGetFrame dmuxer (j : Int) with
  | none => false
  | some iter =>
    match SDL_CreateSurface env j features.width features.height (select_format features) with
    | none => true
    | some curr => (decode_into env features iter.fragment curr).1.isSome

/-- The animation a frame loop exit carries. -/
def LoopExit.anim : LoopExit → IMG_Animation
  | LoopExit.finished a _ => a
  | LoopExit.alloc_failed a _ => a

/-- The memory effects a frame loop exit carries. -/
def LoopExit.trace : LoopExit → List Event
  | LoopExit.finished _ tr => tr
  | LoopExit.alloc_failed _ tr => tr

/-- Whether the frame loop was left without `goto error`. -/
def LoopExit.is_finished : LoopExit → Bool
  | LoopExit.finished _ _ => true
  | LoopExit.alloc_failed _ _ => false

/-- The value of `dmuxer` in a call of the animation loader. -/
def call_dmuxer (env : Env) (s : SDL_IOStream) : Option WebPDemuxer :=
  env.WebPDemuxInternal (payload s)

/-- The value of `anim->count` in a call of the animation loader. -/
def call_count (env : Env) (s : SDL_IOStream) : Int :=
  int_of_uint32 (env.WebPDemuxGetI (call_dmuxer env s))

/-- The animation as allocated before the frame loop. -/
def call_anim (env : Env) (s : SDL_IOStream) (features : WebPBitstreamFeatures) : IMG_Animation :=
  { w := features.width, h := features.height, count := call_count env s,
    frames := List.replicate (call_count env s).toNat none,
    delays := List.replicate (call_count env s).toNat 0 }

/-- The frame loop as a call of the animation loader runs it. -/
def call_frames (env : Env) (s : SDL_IOStream) (features : WebPBitstreamFeatures) : LoopExit :=
  frame_loop env features (select_format features) (call_dmuxer env s)
    (call_count env s).toNat 0 (call_anim env s features)
    [Event.malloc_raw_data (payload_size s)]

/-- Whether iteration `j` of the frame loop gets its frame, its surface and a
non-null decode result. -/
def frame_decodes (env : Env) (features : WebPBitstreamFeatures) (dmuxer : Option WebPDemuxer)
    (j : Nat) : Bool :=
  match env.WebPDemuxGetFrame dmuxer (j : Int) with
  | none => false
  | some iter =>
    match SDL_CreateSurface env j features.width features.height (select_format features) with
    | none => false
    | some curr => (decode_into env features iter.fragment curr).1.isSome

/-- Whether an event is a successful allocation of the payload buffer. -/
def Event.is_malloc_raw_data : Event → Bool
  | Event.malloc_raw_data _ => true
  | _ => false

/-- How many times the payload buffer was allocated. -/
def allocations (tr : List Event) : Nat := tr.countP Event.is_malloc_raw_data

/-- How many times `SDL_free(raw_data)` was called. -/
def releases (tr : List Event) : Nat := tr.count Event.free_raw_data

/-- How many surfaces `SDL_CreateSurface` made. -/
def surfaces_created (tr : List Event) : Nat := tr.count Event.create_surface

/-- How many times `SDL_DestroySurface` was called. -/
def surfaces_destroyed (tr : List Event) : Nat := tr.count Event.destroy_surface

/-- How the frame loop stops after `n` completed iterations from `idx`: at the
end of the count, at a frame that cannot be fetched, at a surface that cannot
be allocated, or at a decode call that returns `NULL`. -/
inductive LoopStop (env : Env) (f : WebPBitstreamFeatures) (dmuxer : Option WebPDemuxer)
    (rem idx : Nat) (anim : IMG_Animation) (e : LoopExit) (n : Nat) : Prop where
  | at_end : n = rem → e.is_finished = true → LoopStop env f dmuxer rem idx anim e n
  | fetch_failed : n < rem → env.WebPDemuxGetFrame dmuxer ((idx + n : Nat) : Int) = none →
      e.is_finished = true →
      e.anim.frames[idx + n]? = anim.frames[idx + n]? →
      e.anim.delays[idx + n]? = anim.delays[idx + n]? →
      LoopStop env f dmuxer rem idx anim e n
  | alloc_failed (iter : WebPIterator) : n < rem →
      env.WebPDemuxGetFrame dmuxer ((idx + n : Nat) : Int) = some iter →
      SDL_CreateSurface env (idx + n) f.width f.height (select_format f) = none →
      e.is_finished = false →
      e.anim.frames[idx + n]? = anim.frames[idx + n]? →
      e.anim.delays[idx + n]? = anim.delays[idx + n]? →
      LoopStop env f dmuxer rem idx anim e n
  | decode_failed (iter : WebPIterator) (curr : SDL_Surface) : n < rem →
      env.WebPDemuxGetFrame dmuxer ((idx + n : Nat) : Int) = some iter →
      SDL_CreateSurface env (idx + n) f.width f.height (select_format f) = some curr →
      (decode_into env f iter.fragment curr).1 = none →
      e.is_finished = true →
      e.anim.frames[idx + n]? = some (some curr) →
      e.anim.delays[idx + n]? = some iter.duration →
      LoopStop env f dmuxer rem idx anim e n

/-- What the frame loop, entered at `idx` with `rem` iterations to go on `anim`,
has done when it is left as `e` after `n` completed iterations. -/
structure LoopSpec (env : Env) (f : WebPBitstreamFeatures) (dmuxer : Option WebPDemuxer)
    (rem idx : Nat) (anim : IMG_Animation) (tr : List Event) (e : LoopExit) (n : Nat) :
    Prop where
  le : n ≤ rem
  w_eq : e.anim.w = anim.w
  h_eq : e.anim.h = anim.h
  count_eq : e.anim.count = anim.count
  frames_length : e.anim.frames.length = anim.frames.length
  delays_length : e.anim.delays.length = anim.delays.length
  untouched : ∀ j, j < idx ∨ idx + n < j →
    e.anim.frames[j]? = anim.frames[j]? ∧ e.anim.delays[j]? = anim.delays[j]?
  completed : ∀ j, idx ≤ j → j < idx + n →
    ∃ iter curr px, env.WebPDemuxGetFrame dmuxer (j : Int) = some iter ∧
      SDL_CreateSurface env j f.width f.height (select_format f) = some curr ∧
      (decode_into env f iter.fragment curr).1 = some px ∧
      e.anim.frames[j]? = some (some { curr with pixels := some px }) ∧
      e.anim.delays[j]? = some iter.duration
  stop : LoopStop env f dmuxer rem idx anim e n
  trace : ∃ evs, e.trace = tr ++ evs ∧
    ∀ ev ∈ evs, ev = Event.create_surface ∨ ev = Event.decode_rgba ∨ ev = Event.decode_rgb

/-! ## Sample inputs -/

/-- The bytes of "RIFF", four bytes, "WEBP", "VP8" and a variant marker, four bytes. -/
def sample_header (variant : Nat) : List Nat :=
  [82, 73, 70, 70, 1, 2, 3, 4, 87, 69, 66, 80, 86, 80, 56, variant, 9, 9, 9, 9]

/-- A codec that accepts every payload of at least 20 bytes as a 2 x 1 image
(with alpha exactly for the 'X' variant), an allocator that never fails, and a
demultiplexer stand-in that answers the frame numbers 0, 1 and 2 with the
fragments `[0]`, `[1]`, `[2]` and the durations 10, 20, 30. -/
def sample_env : Env where
  IMG_Init_WEBP := true
  SDL_malloc := fun _ => true
  WebPGetFeaturesInternal := fun d =>
    if 20 ≤ d.length then some { width := 2, height := 1, has_alpha := d.getD 15 0 == 88 }
    else none
  surface_alloc := fun _ _ _ _ => true
  surface_pitch := fun w f =>
    match f with
    | SDL_PixelFormat.SDL_PIXELFORMAT_RGBA32 => 4 * w
    | SDL_PixelFormat.SDL_PIXELFORMAT_RGB24 => (3 * w + 3) / 4 * 4
  WebPDecodeRGBAInto := fun _ n _ => some (List.replicate n.toNat 255)
  WebPDecodeRGBInto := fun _ n _ => some (List.replicate n.toNat 128)
  WebPDemuxInternal := fun _ => some { handle := 1 }
  WebPDemuxGetI := fun dmux =>
    match dmux with
    | none => 0
    | some _ => 3
  WebPDemuxGetFrame := fun dmux n =>
    match dmux with
    | none => none
    | some _ => if 0 ≤ n ∧ n < 3 then some { fragment := [n.toNat], duration := 10 * (n + 1) } else none

/-- A stream positioned on a header of the given variant, with `extra` more
payload bytes, that reports its true size. -/
def sample_stream (variant extra : Nat) : SDL_IOStream :=
  { data := 7 :: (sample_header variant ++ List.replicate extra 0), pos := 1,
    size := 21 + extra }

/-- The sample codec with an allocator that refuses the surface of frame `k`. -/
def env_surface_fails_at (k : Nat) : Env :=
  { sample_env with surface_alloc := fun j _ _ _ => j != k }

/-- The sample codec with a demuxer that does not deliver frame `k`. -/
def env_fetch_fails_at (k : Nat) : Env :=
  { sample_env with
    WebPDemuxGetFrame := fun dmux n =>
      if n = (k : Int) then none else sample_env.WebPDemuxGetFrame dmux n }

/-- The sample codec with decode routines that return `NULL` on the fragment
of frame `k`. -/
def env_decode_fails_at (k : Nat) : Env :=
  { sample_env with
    WebPDecodeRGBAInto := fun d n stride =>
      if d = [k] then none else sample_env.WebPDecodeRGBAInto d n stride
    WebPDecodeRGBInto := fun d n stride =>
      if d = [k] then none else sample_env.WebPDecodeRGBInto d n stride }

/-- The sample codec with decode routines that always return `NULL`. -/
def env_no_decode : Env :=
  { sample_env with
    WebPDecodeRGBAInto := fun _ _ _ => none
    WebPDecodeRGBInto := fun _ _ _ => none }

/-- A stream positioned on a header that reports 100 bytes and holds 21. -/
def truncated_stream : SDL_IOStream :=
  { data := 7 :: sample_header 32, pos := 1, size := 100 }

/-- A surface of the sample codec for an image without alpha: undecoded
(`pixels = none`) or filled by `WebPDecodeRGBInto`. -/
def sample_surface (pixels : Option (List Nat)) : SDL_Surface :=
  { w := 2, h := 1, format := SDL_PixelFormat.SDL_PIXELFORMAT_RGB24, pitch := 8,
    pixels := pixels }

/-- The animation the sample codec yields: three decoded frames. -/
def sample_animation : IMG_Animation :=
  { w := 2, h := 1, count := 3,
    frames := [some (sample_surface (some (List.replicate 8 128))),
      some (sample_surface (some (List.replicate 8 128))),
      some (sample_surface (some (List.replicate 8 128)))],
    delays := [10, 20, 30] }

/-- The animation the sample codec yields when the decode of frame 1 returns
`NULL`: frame 0 decoded, the undecoded surface of frame 1, an empty slot. -/
def stalled_animation : IMG_Animation :=
  { w := 2, h := 1, count := 3,
    frames := [some (sample_surface (some (List.replicate 8 128))),
      some (sample_surface none), none],
    delays := [10, 20, 0] }

/-- The animation the sample codec yields when frame 1 cannot be fetched:
frame 0 decoded, two empty slots. -/
def cut_animation : IMG_Animation :=
  { w := 2, h := 1, count := 3,
    frames := [some (sample_surface (some (List.replicate 8 128))), none, none],
    delays := [10, 0, 0] }

/-- The frame lookup of the libwebp demultiplexer as `webp/demux.h`, which
the file includes, documents `WebPDemuxGetFrame`: frames are numbered from 1,
the number 0 stands for the last frame, and no other number has a frame. -/
def libwebp_get_frame (frames : List WebPIterator) (frame_number : Int) : Option WebPIterator :=
  if frame_number < 0 then none
  else if frame_number = 0 then frames.getLast?
  else frames[frame_number.toNat - 1]?

/-- The sample codec over a container with the given frames, its demultiplexer
numbering them as libwebp does, and its decode routines filling the surface
with the first byte of the fragment they are given. -/
def libwebp_env (frames : List WebPIterator) : Env :=
  { sample_env with
    WebPDecodeRGBAInto := fun d n _ => some (List.replicate n.toNat (d.headD 0))
    WebPDecodeRGBInto := fun d n _ => some (List.replicate n.toNat (d.headD 0))
    WebPDemuxGetI := fun dmux =>
      match dmux with
      | none => 0
      | some _ => frames.length
    WebPDemuxGetFrame := fun dmux n =>
      match dmux with
      | none => none
      | some _ => libwebp_get_frame frames n }

/-- A container of three frames, in frame order: fragments `[1]`, `[2]`, `[3]`
with the durations 10, 20, 30. -/
def three_frames : List WebPIterator :=
  [{ fragment := [1], duration := 10 }, { fragment := [2], duration := 20 },
    { fragment := [3], duration := 30 }]

/-- What `IMG_LoadWEBPAnimation_IO` returns for `three_frames`: the third frame
in slot 0, the first in slot 1, the second in slot 2. -/
def rotated_animation : IMG_Animation :=
  { w := 2, h := 1, count := 3,
    frames := [some (sample_surface (some (List.replicate 8 3))),
      some (sample_surface (some (List.replicate 8 1))),
      some (sample_surface (some (List.replicate 8 2)))],
    delays := [30, 10, 20] }

/-! ## Facts about the stream primitives -/

theorem window_length (data : List Nat) (p : Nat) :
    ((data.drop p).take 20).length = 20 ↔ p + 20 ≤ data.length := by
  simp only [List.length_take, List.length_drop]
  omega

theorem window_getD (data : List Nat) (p k : Nat) (hk : k < 20) :
    ((data.drop p).take 20).getD k 0 = (data[p + k]?).getD 0 := by
  simp [List.getD_eq_getElem?_getD, List.getElem?_take, hk, List.getElem?_drop]

theorem window_getD_eq_iff (data : List Nat) (p : Nat) (h : p + 20 ≤ data.length)
    (k c : Nat) (hk : k < 20) :
    ((data.drop p).take 20).getD k 0 = c ↔ data[p + k]? = some c := by
  rw [window_getD data p k hk, List.getElem?_eq_getElem (show p + k < data.length by omega)]
  simp

/-- Seeking back to the position told before a read undoes the read. -/
theorem seek_back (s : SDL_IOStream) (n : Nat) :
    SDL_SeekIO ( SDL_ReadIO s n).2 ( SDL_TellIO s) = s := by
  simp [ SDL_SeekIO, SDL_ReadIO, SDL_TellIO]

/-- The probe returns the stream as it found it. -/
theorem webp_getinfo_src (s : SDL_IOStream) (datasize : Option Nat) :
    (webp_getinfo (some s) datasize).src = some s := by
  simp [webp_getinfo, seek_back]

/-- The answer of the probe does not depend on the `datasize` pointer. -/
theorem webp_getinfo_is_WEBP (s : SDL_IOStream) (datasize : Option Nat) :
    (webp_getinfo (some s) datasize).is_WEBP =
      (decide (((s.data.drop s.pos).take 20).length = 20) &&
        magic_matches ((s.data.drop s.pos).take 20)) := by
  unfold webp_getinfo SDL_ReadIO
  dsimp only
  by_cases h1 : ((s.data.drop s.pos).take 20).length = 20
  · by_cases h2 : magic_matches ((s.data.drop s.pos).take 20) = true
    · rw [if_pos h1, if_pos h2, decide_eq_true h1, h2]; rfl
    · rw [if_pos h1, if_neg h2, decide_eq_true h1, Bool.eq_false_iff.mpr h2]; rfl
  · rw [if_neg h1, decide_eq_false h1]; rfl

/-- The probe in terms of the bytes of the stream. -/
theorem is_WEBP_iff (s : SDL_IOStream) (datasize : Option Nat) :
    (webp_getinfo (some s) datasize).is_WEBP = true ↔
      (s.pos + 20 ≤ s.data.length ∧
        s.data[s.pos + 0]? = some 'R'.toNat ∧ s.data[s.pos + 1]? = some 'I'.toNat ∧
        s.data[s.pos + 2]? = some 'F'.toNat ∧ s.data[s.pos + 3]? = some 'F'.toNat ∧
        s.data[s.pos + 8]? = some 'W'.toNat ∧ s.data[s.pos + 9]? = some 'E'.toNat ∧
        s.data[s.pos + 10]? = some 'B'.toNat ∧ s.data[s.pos + 11]? = some 'P'.toNat ∧
        s.data[s.pos + 12]? = some 'V'.toNat ∧ s.data[s.pos + 13]? = some 'P'.toNat ∧
        s.data[s.pos + 14]? = some '8'.toNat ∧
        (s.data[s.pos + 15]? = some ' '.toNat ∨ s.data[s.pos + 15]? = some 'X'.toNat ∨
          s.data[s.pos + 15]? = some 'L'.toNat)) := by
  rw [webp_getinfo_is_WEBP]
  simp only [Bool.and_eq_true, decide_eq_true_eq, window_length]
  have key : s.pos + 20 ≤ s.data.length →
      (magic_matches ((s.data.drop s.pos).take 20) = true ↔
        (s.data[s.pos + 0]? = some 'R'.toNat ∧ s.data[s.pos + 1]? = some 'I'.toNat ∧
        s.data[s.pos + 2]? = some 'F'.toNat ∧ s.data[s.pos + 3]? = some 'F'.toNat ∧
        s.data[s.pos + 8]? = some 'W'.toNat ∧ s.data[s.pos + 9]? = some 'E'.toNat ∧
        s.data[s.pos + 10]? = some 'B'.toNat ∧ s.data[s.pos + 11]? = some 'P'.toNat ∧
        s.data[s.pos + 12]? = some 'V'.toNat ∧ s.data[s.pos + 13]? = some 'P'.toNat ∧
        s.data[s.pos + 14]? = some '8'.toNat ∧
        (s.data[s.pos + 15]? = some ' '.toNat ∨ s.data[s.pos + 15]? = some 'X'.toNat ∨
          s.data[s.pos + 15]? = some 'L'.toNat))) := by
    intro hlen
    have w := window_getD_eq_iff s.data s.pos hlen
    simp only [magic_matches, Bool.and_eq_true, Bool.or_eq_true, beq_iff_eq]
    rw [w 0 _ (by omega), w 1 _ (by omega), w 2 _ (by omega), w 3 _ (by omega),
      w 8 _ (by omega), w 9 _ (by omega), w 10 _ (by omega), w 11 _ (by omega),
      w 12 _ (by omega), w 13 _ (by omega), w 14 _ (by omega), w 15 _ (by omega),
      w 15 _ (by omega), w 15 _ (by omega)]
    tauto
  constructor
  · rintro ⟨hlen, hm⟩
    exact ⟨hlen, (key hlen).1 hm⟩
  · rintro ⟨hlen, hm⟩
    exact ⟨hlen, (key hlen).2 hm⟩

/-! ## The format probe -/

/-- C1: for a non-null stream at position `p`, `webp_getinfo` (with any
`datasize` pointer) and `IMG_isWEBP` return true exactly when 20 bytes can be
read from `p` and bytes 0-3 are "RIFF", bytes 8-11 are "WEBP", bytes 12-14 are
"VP8" and byte 15 is one of ' ', 'X', 'L'; overwriting any of the bytes 4-7 and
16-19 of the window with any value does not change the answer; and a stream
with fewer than 20 bytes left is not a match. -/
theorem IMG_isWEBP_iff_header (s : SDL_IOStream) (datasize : Option Nat) :
    ((IMG_isWEBP (some s)).1 = (webp_getinfo (some s) datasize).is_WEBP) ∧
    ((IMG_isWEBP (some s)).1 = true ↔
      (s.pos + 20 ≤ s.data.length ∧
        s.data[s.pos + 0]? = some 'R'.toNat ∧ s.data[s.pos + 1]? = some 'I'.toNat ∧
        s.data[s.pos + 2]? = some 'F'.toNat ∧ s.data[s.pos + 3]? = some 'F'.toNat ∧
        s.data[s.pos + 8]? = some 'W'.toNat ∧ s.data[s.pos + 9]? = some 'E'.toNat ∧
        s.data[s.pos + 10]? = some 'B'.toNat ∧ s.data[s.pos + 11]? = some 'P'.toNat ∧
        s.data[s.pos + 12]? = some 'V'.toNat ∧ s.data[s.pos + 13]? = some 'P'.toNat ∧
        s.data[s.pos + 14]? = some '8'.toNat ∧
        (s.data[s.pos + 15]? = some ' '.toNat ∨ s.data[s.pos + 15]? = some 'X'.toNat ∨
          s.data[s.pos + 15]? = some 'L'.toNat))) ∧
    (∀ k ∈ [4, 5, 6, 7, 16, 17, 18, 19], ∀ v : Nat,
      (IMG_isWEBP (some { s with data := s.data.set (s.pos + k) v })).1 =
        (IMG_isWEBP (some s)).1) ∧
    (s.data.length < s.pos + 20 → (IMG_isWEBP (some s)).1 = false) := by
  refine ⟨?_, ?_, ?_, ?_⟩
  · simp only [IMG_isWEBP, webp_getinfo_is_WEBP]
  · exact is_WEBP_iff s none
  · intro k hk v
    simp only [IMG_isWEBP]
    rw [Bool.eq_iff_iff, is_WEBP_iff, is_WEBP_iff]
    simp only [List.mem_cons, List.mem_singleton, List.not_mem_nil, or_false] at hk
    rcases hk with rfl | rfl | rfl | rfl | rfl | rfl | rfl | rfl <;>
      simp [List.getElem?_set_ne]
  · intro hshort
    rw [← Bool.not_eq_true]
    intro hm
    have := ((is_WEBP_iff s none).1 hm).1
    omega

/-- C1 at work: a stream positioned on a "VP8X" header is a match, the same
stream with other bytes 4-7 still is, and 19 bytes are not enough. -/
theorem IMG_isWEBP_iff_header_witness :
    (IMG_isWEBP (some ⟨7 :: sample_header 88, 1, 21⟩)).1 = true ∧
    (IMG_isWEBP (some ⟨(7 :: sample_header 88).set (1 + 5) 200, 1, 21⟩)).1 = true ∧
    (IMG_isWEBP (some ⟨(sample_header 88).take 19, 0, 19⟩)).1 = false :=
  ⟨by decide,
   ((IMG_isWEBP_iff_header ⟨7 :: sample_header 88, 1, 21⟩ none).2.2.1 5 (by decide) 200).trans
     (by decide),
   (IMG_isWEBP_iff_header ⟨(sample_header 88).take 19, 0, 19⟩ none).2.2.2 (by decide)⟩

/-- C2: for a non-null stream of any content, the position after `webp_getinfo`
and after `IMG_isWEBP` is the position at entry; when the 20-byte window does
not match the header pattern the answer is false and the position is kept; and
either loader called on the stream the probe leaves behind does exactly what it
does on the stream as it was before the probe. -/
theorem probe_restores_position (env : Env) (s : SDL_IOStream) (datasize : Option Nat) :
    (webp_getinfo (some s) datasize).src.map SDL_TellIO = some ( SDL_TellIO s) ∧
    (IMG_isWEBP (some s)).2.map SDL_TellIO = some ( SDL_TellIO s) ∧
    (magic_matches ((s.data.drop s.pos).take 20) = false →
      (IMG_isWEBP (some s)).1 = false ∧
        (IMG_isWEBP (some s)).2.map SDL_TellIO = some ( SDL_TellIO s)) ∧
    IMG_LoadWEBP_IO env (IMG_isWEBP (some s)).2 = IMG_LoadWEBP_IO env (some s) ∧
    IMG_LoadWEBPAnimation_IO env (IMG_isWEBP (some s)).2 =
      IMG_LoadWEBPAnimation_IO env (some s) := by
  have h2 : (IMG_isWEBP (some s)).2 = some s := by
    simp only [IMG_isWEBP, webp_getinfo_src]
  refine ⟨?_, ?_, ?_, ?_, ?_⟩
  · rw [webp_getinfo_src]; rfl
  · rw [h2]; rfl
  · intro hm
    refine ⟨?_, by rw [h2]; rfl⟩
    simp only [IMG_isWEBP, webp_getinfo_is_WEBP, hm, Bool.and_false]
  · rw [h2]
  · rw [h2]

/-- C2 at work: three bytes that are no header are answered with false, at the
position the probe started from. -/
theorem probe_restores_position_witness :
    (IMG_isWEBP (some ⟨[1, 2, 3], 1, 3⟩)).1 = false ∧
      (IMG_isWEBP (some ⟨[1, 2, 3], 1, 3⟩)).2.map SDL_TellIO = some 1 :=
  (probe_restores_position sample_env ⟨[1, 2, 3], 1, 3⟩ none).2.2.1 (by decide)

/-- C8: when the header matches and a size output is requested, `webp_getinfo`
writes `size - start` if the stream reports a positive total size `size` (a
`Sint64` that the entry position `start` does not exceed) and writes 0 if the
reported size is not positive; when the header does not match, the size output
keeps the value `v` it had at entry. -/
theorem webp_getinfo_datasize (s : SDL_IOStream) (v : Nat) :
    ((webp_getinfo (some s) (some v)).is_WEBP = true → 0 < SDL_GetIOSize s →
      SDL_TellIO s ≤ SDL_GetIOSize s → SDL_GetIOSize s < 2 ^ 63 →
      ∃ d : Nat, (webp_getinfo (some s) (some v)).datasize = some d ∧
        (d : Int) = SDL_GetIOSize s - SDL_TellIO s) ∧
    ((webp_getinfo (some s) (some v)).is_WEBP = true → SDL_GetIOSize s ≤ 0 →
      (webp_getinfo (some s) (some v)).datasize = some 0) ∧
    ((webp_getinfo (some s) (some v)).is_WEBP = false →
      (webp_getinfo (some s) (some v)).datasize = some v) := by
  have hw := webp_getinfo_is_WEBP s (some v)
  unfold webp_getinfo SDL_ReadIO at *
  dsimp only at *
  by_cases h1 : ((s.data.drop s.pos).take 20).length = 20
  · by_cases h2 : magic_matches ((s.data.drop s.pos).take 20) = true
    · simp only [if_pos h1, if_pos h2, SDL_GetIOSize, SDL_TellIO]
      refine ⟨?_, ?_, ?_⟩
      · intro _ hpos hle hlt
        refine ⟨size_t_cast (s.size - (s.pos : Int)), by rw [if_pos hpos], ?_⟩
        unfold size_t_cast
        rw [Int.emod_eq_of_lt (by omega) (by omega), Int.toNat_of_nonneg (by omega)]
      · intro _ hle
        rw [if_neg (by omega)]
      · intro h; simp at h
    · simp only [if_pos h1, if_neg h2]
      refine ⟨?_, ?_, ?_⟩
      · intro h; simp at h
      · intro h; simp at h
      · intro _; trivial
  · simp only [if_neg h1]
    refine ⟨?_, ?_, ?_⟩
    · intro h; simp at h
    · intro h; simp at h
    · intro _; trivial

/-- C8 at work: on a header at position 1 of a stream of 26 bytes the size
output becomes 25; with an unknown size it becomes 0; on a stream that is no
header it keeps its value. -/
theorem webp_getinfo_datasize_witness :
    (∃ d : Nat, (webp_getinfo (some (sample_stream 32 5)) (some SIZE_MAX)).datasize = some d ∧
      (d : Int) = 26 - 1) ∧
    (webp_getinfo (some { sample_stream 32 5 with size := -1 }) (some SIZE_MAX)).datasize
      = some 0 ∧
    (webp_getinfo (some ⟨[1, 2, 3], 1, 3⟩) (some SIZE_MAX)).datasize = some SIZE_MAX :=
  ⟨(webp_getinfo_datasize (sample_stream 32 5) SIZE_MAX).1 (by decide) (by decide) (by decide)
      (by decide),
   (webp_getinfo_datasize { sample_stream 32 5 with size := -1 } SIZE_MAX).2.1 (by decide)
      (by decide),
   (webp_getinfo_datasize ⟨[1, 2, 3], 1, 3⟩ SIZE_MAX).2.2 (by decide)⟩

/-! ## The single-image loader -/

/-- The paths through `IMG_LoadWEBP_IO` on a non-null stream: a property holds
of the call as soon as it holds of what each of the eight paths leaves behind. -/
theorem IMG_LoadWEBP_IO_paths (env : Env) (s : SDL_IOStream) (P : LoadResult → Prop)
    (h_init : env.IMG_Init_WEBP = false →
      P (IMG_LoadWEBP_IO_error s ( SDL_TellIO s) none none none []))
    (h_magic : env.IMG_Init_WEBP = true →
      (webp_getinfo (some s) (some SIZE_MAX)).is_WEBP = false →
      P (IMG_LoadWEBP_IO_error s ( SDL_TellIO s) none none (some "Invalid WEBP") []))
    (h_malloc : env.IMG_Init_WEBP = true →
      (webp_getinfo (some s) (some SIZE_MAX)).is_WEBP = true →
      env.SDL_malloc (payload_size s) = false →
      P (IMG_LoadWEBP_IO_error s ( SDL_TellIO s) none none
        (some "Failed to allocate enough buffer for WEBP") []))
    (h_read : env.IMG_Init_WEBP = true →
      (webp_getinfo (some s) (some SIZE_MAX)).is_WEBP = true →
      env.SDL_malloc (payload_size s) = true →
      (payload s).length ≠ payload_size s →
      P (IMG_LoadWEBP_IO_error ( SDL_ReadIO s (payload_size s)).2 ( SDL_TellIO s)
        (some (payload s)) none (some "Failed to read WEBP")
        [Event.malloc_raw_data (payload_size s)]))
    (h_features : env.IMG_Init_WEBP = true →
      (webp_getinfo (some s) (some SIZE_MAX)).is_WEBP = true →
      env.SDL_malloc (payload_size s) = true →
      (payload s).length = payload_size s →
      env.WebPGetFeaturesInternal (payload s) = none →
      P (IMG_LoadWEBP_IO_error ( SDL_ReadIO s (payload_size s)).2 ( SDL_TellIO s)
        (some (payload s)) none (some "WebPGetFeatures has failed")
        [Event.malloc_raw_data (payload_size s)]))
    (h_surface : ∀ features, env.IMG_Init_WEBP = true →
      (webp_getinfo (some s) (some SIZE_MAX)).is_WEBP = true →
      env.SDL_malloc (payload_size s) = true →
      (payload s).length = payload_size s →
      env.WebPGetFeaturesInternal (payload s) = some features →
      SDL_CreateSurface env 0 features.width features.height (select_format features) = none →
      P (IMG_LoadWEBP_IO_error ( SDL_ReadIO s (payload_size s)).2 ( SDL_TellIO s)
        (some (payload s)) none (some "Failed to allocate SDL_Surface")
        [Event.malloc_raw_data (payload_size s)]))
    (h_decode : ∀ features surface, env.IMG_Init_WEBP = true →
      (webp_getinfo (some s) (some SIZE_MAX)).is_WEBP = true →
      env.SDL_malloc (payload_size s) = true →
      (payload s).length = payload_size s →
      env.WebPGetFeaturesInternal (payload s) = some features →
      SDL_CreateSurface env 0 features.width features.height (select_format features)
        = some surface →
      (decode_into env features (payload s) surface).1 = none →
      P (IMG_LoadWEBP_IO_error ( SDL_ReadIO s (payload_size s)).2 ( SDL_TellIO s)
        (some (payload s)) (some surface) (some "Failed to decode WEBP")
        ([Event.malloc_raw_data (payload_size s)] ++ [Event.create_surface] ++
          [(decode_into env features (payload s) surface).2])))
    (h_ok : ∀ features surface px, env.IMG_Init_WEBP = true →
      (webp_getinfo (some s) (some SIZE_MAX)).is_WEBP = true →
      env.SDL_malloc (payload_size s) = true →
      (payload s).length = payload_size s →
      env.WebPGetFeaturesInternal (payload s) = some features →
      SDL_CreateSurface env 0 features.width features.height (select_format features)
        = some surface →
      (decode_into env features (payload s) surface).1 = some px →
      P { ret := some { surface with pixels := some px },
          src := some ( SDL_ReadIO s (payload_size s)).2, error := none,
          trace := [Event.malloc_raw_data (payload_size s)] ++ [Event.create_surface] ++
            [(decode_into env features (payload s) surface).2] ++ [Event.free_raw_data] }) :
    P ( IMG_LoadWEBP_IO env (some s)) := by
  unfold IMG_LoadWEBP_IO
  simp only [webp_getinfo_src, Option.getD_some]
  unfold payload payload_size at *
  by_cases hi : env.IMG_Init_WEBP = true
  swap
  · rw [Bool.not_eq_true] at hi
    simp only [hi, Bool.not_false, if_true]
    exact h_init hi
  simp only [hi, Bool.not_true, Bool.false_eq_true, if_false]
  by_cases hm : (webp_getinfo (some s) (some SIZE_MAX)).is_WEBP = true
  swap
  · rw [Bool.not_eq_true] at hm
    simp only [hm, Bool.not_false, if_true]
    exact h_magic hi hm
  simp only [hm, Bool.not_true, Bool.false_eq_true, if_false]
  by_cases ha : env.SDL_malloc ((webp_getinfo (some s) (some SIZE_MAX)).datasize.getD SIZE_MAX)
    = true
  swap
  · rw [Bool.not_eq_true] at ha
    simp only [ha, Bool.not_false, if_true]
    exact h_malloc hi hm ha
  simp only [ha, Bool.not_true, Bool.false_eq_true, if_false]
  split_ifs with hr
  · exact h_read hi hm ha hr
  · rw [ne_eq, not_not] at hr
    split
    · next hf => exact h_features hi hm ha hr hf
    · next features hf =>
      split
      · next hs => exact h_surface features hi hm ha hr hf hs
      · next surface hs =>
        split
        · next hd => exact h_decode features surface hi hm ha hr hf hs hd
        · next px hd => exact h_ok features surface px hi hm ha hr hf hs hd

/-! ## The animation loader -/

/-- The paths through `IMG_LoadWEBPAnimation_IO` on a non-null stream. -/
theorem IMG_LoadWEBPAnimation_IO_paths (env : Env) (s : SDL_IOStream) (P : AnimResult → Prop)
    (h_init : env.IMG_Init_WEBP = false →
      P (IMG_LoadWEBPAnimation_IO_error s ( SDL_TellIO s) none none none none []))
    (h_magic : env.IMG_Init_WEBP = true →
      (webp_getinfo (some s) (some SIZE_MAX)).is_WEBP = false →
      P (IMG_LoadWEBPAnimation_IO_error s ( SDL_TellIO s) none none none
        (some "Invalid WEBP Animation") []))
    (h_malloc : env.IMG_Init_WEBP = true →
      (webp_getinfo (some s) (some SIZE_MAX)).is_WEBP = true →
      env.SDL_malloc (payload_size s) = false →
      P (IMG_LoadWEBPAnimation_IO_error s ( SDL_TellIO s) none none none
        (some "Failed to allocate enough buffer for WEBP Animation") []))
    (h_read : env.IMG_Init_WEBP = true →
      (webp_getinfo (some s) (some SIZE_MAX)).is_WEBP = true →
      env.SDL_malloc (payload_size s) = true →
      (payload s).length ≠ payload_size s →
      P (IMG_LoadWEBPAnimation_IO_error ( SDL_ReadIO s (payload_size s)).2 ( SDL_TellIO s)
        none none (some (payload s)) (some "Failed to read WEBP Animation")
        [Event.malloc_raw_data (payload_size s)]))
    (h_features : env.IMG_Init_WEBP = true →
      (webp_getinfo (some s) (some SIZE_MAX)).is_WEBP = true →
      env.SDL_malloc (payload_size s) = true →
      (payload s).length = payload_size s →
      env.WebPGetFeaturesInternal (payload s) = none →
      P (IMG_LoadWEBPAnimation_IO_error ( SDL_ReadIO s (payload_size s)).2 ( SDL_TellIO s)
        none none (some (payload s)) (some "WebPGetFeatures has failed")
        [Event.malloc_raw_data (payload_size s)]))
    (h_surface : ∀ features anim1 tr2, env.IMG_Init_WEBP = true →
      (webp_getinfo (some s) (some SIZE_MAX)).is_WEBP = true →
      env.SDL_malloc (payload_size s) = true →
      (payload s).length = payload_size s →
      env.WebPGetFeaturesInternal (payload s) = some features →
      call_frames env s features = LoopExit.alloc_failed anim1 tr2 →
      P (IMG_LoadWEBPAnimation_IO_error ( SDL_ReadIO s (payload_size s)).2 ( SDL_TellIO s)
        (some anim1) (call_dmuxer env s) (some (payload s))
        (some "Failed to allocate SDL_Surface") tr2))
    (h_ok : ∀ features anim1 tr2, env.IMG_Init_WEBP = true →
      (webp_getinfo (some s) (some SIZE_MAX)).is_WEBP = true →
      env.SDL_malloc (payload_size s) = true →
      (payload s).length = payload_size s →
      env.WebPGetFeaturesInternal (payload s) = some features →
      call_frames env s features = LoopExit.finished anim1 tr2 →
      P { ret := some anim1, src := some ( SDL_ReadIO s (payload_size s)).2, error := none,
          trace := demux_delete_if (call_dmuxer env s) tr2 ++ [Event.free_raw_data] }) :
    P ( IMG_LoadWEBPAnimation_IO env (some s)) := by
  unfold IMG_LoadWEBPAnimation_IO
  simp only [webp_getinfo_src, Option.getD_some]
  unfold call_frames call_anim call_count call_dmuxer payload payload_size at *
  by_cases hi : env.IMG_Init_WEBP = true
  swap
  · rw [Bool.not_eq_true] at hi
    simp only [hi, Bool.not_false, if_true]
    exact h_init hi
  simp only [hi, Bool.not_true, Bool.false_eq_true, if_false]
  by_cases hm : (webp_getinfo (some s) (some SIZE_MAX)).is_WEBP = true
  swap
  · rw [Bool.not_eq_true] at hm
    simp only [hm, Bool.not_false, if_true]
    exact h_magic hi hm
  simp only [hm, Bool.not_true, Bool.false_eq_true, if_false]
  by_cases ha : env.SDL_malloc ((webp_getinfo (some s) (some SIZE_MAX)).datasize.getD SIZE_MAX)
    = true
  swap
  · rw [Bool.not_eq_true] at ha
    simp only [ha, Bool.not_false, if_true]
    exact h_malloc hi hm ha
  simp only [ha, Bool.not_true, Bool.false_eq_true, if_false]
  split_ifs with hr
  · exact h_read hi hm ha hr
  · rw [ne_eq, not_not] at hr
    split
    · next hf => exact h_features hi hm ha hr hf
    · next features hf =>
      split
      · next anim1 tr2 hl => exact h_surface features anim1 tr2 hi hm ha hr hf hl
      · next anim1 tr2 hl => exact h_ok features anim1 tr2 hi hm ha hr hf hl

theorem decode_into_event (env : Env) (f : WebPBitstreamFeatures) (d : List Nat)
    (surface : SDL_Surface) :
    (decode_into env f d surface).2 = Event.decode_rgba ∨
      (decode_into env f d surface).2 = Event.decode_rgb := by
  unfold decode_into
  split_ifs
  · exact Or.inl rfl
  · exact Or.inr rfl

/-- The frame loop meets its description. -/
theorem frame_loop_spec (env : Env) (f : WebPBitstreamFeatures) (dmuxer : Option WebPDemuxer) :
    ∀ (rem idx : Nat) (anim : IMG_Animation) (tr : List Event),
      idx + rem ≤ anim.frames.length → idx + rem ≤ anim.delays.length →
      ∃ n, LoopSpec env f dmuxer rem idx anim tr
        (frame_loop env f (select_format f) dmuxer rem idx anim tr) n := by
  intro rem
  induction rem with
  | zero =>
    intro idx anim tr _ _
    refine ⟨0, ?_⟩
    rw [frame_loop]
    exact
      { le := le_refl _, w_eq := rfl, h_eq := rfl, count_eq := rfl, frames_length := rfl,
        delays_length := rfl, untouched := fun _ _ => ⟨rfl, rfl⟩,
        completed := fun j h1 h2 => by omega,
        stop := LoopStop.at_end rfl rfl,
        trace := ⟨[], by simp [LoopExit.trace], by simp⟩ }
  | succ rem ih =>
    intro idx anim tr hf hd
    rw [frame_loop]
    cases hg : env.WebPDemuxGetFrame dmuxer (idx : Int) with
    | none =>
      refine ⟨0, ?_⟩
      exact
        { le := Nat.zero_le _, w_eq := rfl, h_eq := rfl, count_eq := rfl, frames_length := rfl,
          delays_length := rfl, untouched := fun _ _ => ⟨rfl, rfl⟩,
          completed := fun j h1 h2 => by omega,
          stop := LoopStop.fetch_failed (Nat.succ_pos _) hg rfl rfl rfl,
          trace := ⟨[], by simp [LoopExit.trace], by simp⟩ }
    | some iter =>
      dsimp only
      cases hc : SDL_CreateSurface env idx f.width f.height (select_format f) with
      | none =>
        refine ⟨0, ?_⟩
        exact
          { le := Nat.zero_le _, w_eq := rfl, h_eq := rfl, count_eq := rfl, frames_length := rfl,
            delays_length := rfl, untouched := fun _ _ => ⟨rfl, rfl⟩,
            completed := fun j h1 h2 => by omega,
            stop := LoopStop.alloc_failed iter (Nat.succ_pos _) hg hc rfl rfl rfl,
            trace := ⟨[], by simp [LoopExit.trace], by simp⟩ }
      | some curr =>
        dsimp only
        cases hdec : (decode_into env f iter.fragment curr).1 with
        | none =>
          refine ⟨0, ?_⟩
          exact
            { le := Nat.zero_le _, w_eq := rfl, h_eq := rfl, count_eq := rfl,
              frames_length := by simp [LoopExit.anim],
              delays_length := by simp [LoopExit.anim],
              untouched := fun j hj => by
                have hne : idx ≠ j := by omega
                simp [LoopExit.anim, List.getElem?_set_ne hne],
              completed := fun j h1 h2 => by omega,
              stop := LoopStop.decode_failed iter curr (Nat.succ_pos _) hg hc hdec rfl
                (by simp only [LoopExit.anim, Nat.add_zero]
                    exact List.getElem?_set_self (by omega))
                (by simp only [LoopExit.anim, Nat.add_zero]
                    exact List.getElem?_set_self (by omega)),
              trace := ⟨[Event.create_surface, (decode_into env f iter.fragment curr).2],
                by simp [LoopExit.trace], by
                  intro ev hev
                  simp only [List.mem_cons, List.mem_singleton, List.not_mem_nil, or_false] at hev
                  rcases hev with rfl | rfl
                  · exact Or.inl rfl
                  · exact Or.inr (decode_into_event env f iter.fragment curr)⟩ }
        | some px =>
          dsimp only
          obtain ⟨n, hn⟩ := ih (idx + 1)
            { w := anim.w, h := anim.h, count := anim.count,
              frames := (anim.frames.set idx (some curr)).set idx
                (some { curr with pixels := some px }),
              delays := anim.delays.set idx iter.duration }
            (tr ++ [Event.create_surface, (decode_into env f iter.fragment curr).2])
            (by simp only [List.length_set]; omega) (by simp only [List.length_set]; omega)
          refine ⟨n + 1, ?_⟩
          exact
            { le := Nat.succ_le_succ hn.le, w_eq := hn.w_eq, h_eq := hn.h_eq,
              count_eq := hn.count_eq,
              frames_length := by rw [hn.frames_length]; simp only [List.length_set],
              delays_length := by rw [hn.delays_length]; simp only [List.length_set],
              untouched := fun j hj => by
                have hne : idx ≠ j := by omega
                have := hn.untouched j (by omega)
                simpa [List.getElem?_set_ne hne] using this,
              completed := fun j h1 h2 => by
                by_cases hj : j = idx
                · subst hj
                  have := hn.untouched j (Or.inl (Nat.lt_succ_self _))
                  refine ⟨iter, curr, px, hg, hc, hdec, ?_, ?_⟩
                  · rw [this.1]; exact List.getElem?_set_self (by simp only [List.length_set]; omega)
                  · rw [this.2]; exact List.getElem?_set_self (by omega)
                · exact hn.completed j (by omega) (by omega),
              stop := by
                have hidx : idx + 1 + n = idx + (n + 1) := by omega
                have hne : idx ≠ idx + (n + 1) := by omega
                cases hn.stop with
                | at_end h1 h2 => exact LoopStop.at_end (by omega) h2
                | fetch_failed h1 h2 h3 h4 h5 =>
                  rw [hidx] at h2 h4 h5
                  exact LoopStop.fetch_failed (by omega) h2 h3
                    (by simpa [List.getElem?_set_ne hne] using h4)
                    (by simpa [List.getElem?_set_ne hne] using h5)
                | alloc_failed it h1 h2 h3 h4 h5 h6 =>
                  rw [hidx] at h2 h3 h5 h6
                  exact LoopStop.alloc_failed it (by omega) h2 h3 h4
                    (by simpa [List.getElem?_set_ne hne] using h5)
                    (by simpa [List.getElem?_set_ne hne] using h6)
                | decode_failed it cu h1 h2 h3 h4 h5 h6 h7 =>
                  rw [hidx] at h2 h3 h6 h7
                  exact LoopStop.decode_failed it cu (by omega) h2 h3 h4 h5 h6 h7,
              trace := by
                obtain ⟨evs, he, hevs⟩ := hn.trace
                refine ⟨[Event.create_surface, (decode_into env f iter.fragment curr).2] ++ evs,
                  by rw [he]; simp, ?_⟩
                intro ev hev
                simp only [List.cons_append, List.nil_append, List.mem_cons] at hev
                rcases hev with rfl | rfl | hev
                · exact Or.inl rfl
                · exact Or.inr (decode_into_event env f iter.fragment curr)
                · exact hevs ev hev }

/-- The frame loop of a call meets its description. -/
theorem call_frames_spec (env : Env) (s : SDL_IOStream) (f : WebPBitstreamFeatures) :
    ∃ n, LoopSpec env f (call_dmuxer env s) (call_count env s).toNat 0 (call_anim env s f)
      [Event.malloc_raw_data (payload_size s)] (call_frames env s f) n := by
  unfold call_frames
  apply frame_loop_spec
  · simp [call_anim]
  · simp [call_anim]

theorem frame_decodes_of_completed (env : Env) (f : WebPBitstreamFeatures)
    (dmuxer : Option WebPDemuxer) (j : Nat) (iter : WebPIterator) (curr : SDL_Surface)
    (px : List Nat) (hg : env.WebPDemuxGetFrame dmuxer (j : Int) = some iter)
    (hc : SDL_CreateSurface env j f.width f.height (select_format f) = some curr)
    (hd : (decode_into env f iter.fragment curr).1 = some px) :
    frame_decodes env f dmuxer j = true := by
  simp [frame_decodes, hg, hc, hd]

/-- The loop completes exactly the iterations before the first one that does
not get its frame, its surface and its pixels. -/
theorem loop_stop_index (env : Env) (f : WebPBitstreamFeatures) (dmuxer : Option WebPDemuxer)
    (rem : Nat) (anim : IMG_Animation) (tr : List Event) (e : LoopExit) (n i : Nat)
    (hs : LoopSpec env f dmuxer rem 0 anim tr e n) (hi : i < rem)
    (hbefore : ∀ j, j < i → frame_decodes env f dmuxer j = true)
    (hat : frame_decodes env f dmuxer i = false) : n = i := by
  rcases Nat.lt_trichotomy n i with hlt | heq | hgt
  · exfalso
    have hb := hbefore n hlt
    cases hs.stop with
    | at_end h1 h2 => omega
    | fetch_failed h1 h2 h3 h4 h5 =>
      rw [Nat.zero_add] at h2
      simp [frame_decodes, h2] at hb
    | alloc_failed it h1 h2 h3 h4 h5 h6 =>
      rw [Nat.zero_add] at h2 h3
      simp [frame_decodes, h2, h3] at hb
    | decode_failed it cu h1 h2 h3 h4 h5 h6 h7 =>
      rw [Nat.zero_add] at h2 h3
      simp [frame_decodes, h2, h3, h4] at hb
  · exact heq
  · exfalso
    obtain ⟨iter, curr, px, hg, hc, hd, _, _⟩ := hs.completed i (Nat.zero_le _) (by omega)
    rw [frame_decodes_of_completed env f dmuxer i iter curr px hg hc hd] at hat
    exact Bool.noConfusion hat

/-- Past the probe, the payload read and the feature query, the animation
loader is its frame loop followed by one of its two exits. -/
theorem IMG_LoadWEBPAnimation_IO_reached (env : Env) (s : SDL_IOStream)
    (f : WebPBitstreamFeatures) (hi : env.IMG_Init_WEBP = true)
    (hm : (webp_getinfo (some s) (some SIZE_MAX)).is_WEBP = true)
    (ha : env.SDL_malloc (payload_size s) = true)
    (hr : (payload s).length = payload_size s)
    (hf : env.WebPGetFeaturesInternal (payload s) = some f) :
    IMG_LoadWEBPAnimation_IO env (some s) =
      match call_frames env s f with
      | LoopExit.alloc_failed anim1 tr2 =>
        IMG_LoadWEBPAnimation_IO_error ( SDL_ReadIO s (payload_size s)).2 ( SDL_TellIO s)
          (some anim1) (call_dmuxer env s) (some (payload s))
          (some "Failed to allocate SDL_Surface") tr2
      | LoopExit.finished anim1 tr2 =>
        { ret := some anim1, src := some ( SDL_ReadIO s (payload_size s)).2, error := none,
          trace := demux_delete_if (call_dmuxer env s) tr2 ++ [Event.free_raw_data] } := by
  apply IMG_LoadWEBPAnimation_IO_paths env s (fun r => r =
      match call_frames env s f with
      | LoopExit.alloc_failed anim1 tr2 =>
        IMG_LoadWEBPAnimation_IO_error ( SDL_ReadIO s (payload_size s)).2 ( SDL_TellIO s)
          (some anim1) (call_dmuxer env s) (some (payload s))
          (some "Failed to allocate SDL_Surface") tr2
      | LoopExit.finished anim1 tr2 =>
        { ret := some anim1, src := some ( SDL_ReadIO s (payload_size s)).2, error := none,
          trace := demux_delete_if (call_dmuxer env s) tr2 ++ [Event.free_raw_data] })
  · intro h; rw [hi] at h; exact Bool.noConfusion h
  · intro _ h; rw [hm] at h; exact Bool.noConfusion h
  · intro _ _ h; rw [ha] at h; exact Bool.noConfusion h
  · intro _ _ _ h; exact absurd hr h
  · intro _ _ _ _ h; rw [hf] at h; exact Option.noConfusion h
  · intro f2 anim1 tr2 _ _ _ _ h2 hl
    rw [hf] at h2
    cases h2
    rw [hl]
  · intro f2 anim1 tr2 _ _ _ _ h2 hl
    rw [hf] at h2
    cases h2
    rw [hl]

theorem IMG_LoadWEBPAnimation_IO_error_src (s s2 : SDL_IOStream) (n : Nat)
    (h : s2 = ( SDL_ReadIO s n).2) (anim : Option IMG_Animation) (dmuxer : Option WebPDemuxer)
    (raw_data : Option (List Nat)) (error : Option String) (tr : List Event) :
    (IMG_LoadWEBPAnimation_IO_error s2 ( SDL_TellIO s) anim dmuxer raw_data error tr).src
      = some s := by
  subst h
  simp [IMG_LoadWEBPAnimation_IO_error, seek_back]

theorem IMG_LoadWEBP_IO_error_src (s s2 : SDL_IOStream) (n : Nat) (h : s2 = ( SDL_ReadIO s n).2)
    (raw_data : Option (List Nat)) (surface : Option SDL_Surface) (error : Option String)
    (tr : List Event) :
    (IMG_LoadWEBP_IO_error s2 ( SDL_TellIO s) raw_data surface error tr).src = some s := by
  subst h
  simp [IMG_LoadWEBP_IO_error, seek_back]

theorem SDL_ReadIO_zero (s : SDL_IOStream) : ( SDL_ReadIO s 0).2 = s := by
  simp [ SDL_ReadIO]

/-- A call of `IMG_LoadWEBP_IO` that returns `NULL` leaves the stream as found. -/
theorem IMG_LoadWEBP_IO_null_src (env : Env) (s : SDL_IOStream) :
    ( IMG_LoadWEBP_IO env (some s)).ret = none → ( IMG_LoadWEBP_IO env (some s)).src = some s := by
  apply IMG_LoadWEBP_IO_paths env s (fun r => r.ret = none → r.src = some s)
  · intro _ _; exact IMG_LoadWEBP_IO_error_src s s 0 (SDL_ReadIO_zero s).symm _ _ _ _
  · intro _ _ _; exact IMG_LoadWEBP_IO_error_src s s 0 (SDL_ReadIO_zero s).symm _ _ _ _
  · intro _ _ _ _; exact IMG_LoadWEBP_IO_error_src s s 0 (SDL_ReadIO_zero s).symm _ _ _ _
  · intro _ _ _ _ _; exact IMG_LoadWEBP_IO_error_src s _ _ rfl _ _ _ _
  · intro _ _ _ _ _ _; exact IMG_LoadWEBP_IO_error_src s _ _ rfl _ _ _ _
  · intro _ _ _ _ _ _ _ _; exact IMG_LoadWEBP_IO_error_src s _ _ rfl _ _ _ _
  · intro _ _ _ _ _ _ _ _ _ _; exact IMG_LoadWEBP_IO_error_src s _ _ rfl _ _ _ _
  · intro _ _ _ _ _ _ _ _ _ _ h; exact Option.noConfusion h

/-- A call of `IMG_LoadWEBPAnimation_IO` that returns `NULL` leaves the stream
as found. -/
theorem IMG_LoadWEBPAnimation_IO_null_src (env : Env) (s : SDL_IOStream) :
    ( IMG_LoadWEBPAnimation_IO env (some s)).ret = none →
      ( IMG_LoadWEBPAnimation_IO env (some s)).src = some s := by
  apply IMG_LoadWEBPAnimation_IO_paths env s (fun r => r.ret = none → r.src = some s)
  · intro _ _; exact IMG_LoadWEBPAnimation_IO_error_src s s 0 (SDL_ReadIO_zero s).symm _ _ _ _ _
  · intro _ _ _; exact IMG_LoadWEBPAnimation_IO_error_src s s 0 (SDL_ReadIO_zero s).symm _ _ _ _ _
  · intro _ _ _ _
    exact IMG_LoadWEBPAnimation_IO_error_src s s 0 (SDL_ReadIO_zero s).symm _ _ _ _ _
  · intro _ _ _ _ _; exact IMG_LoadWEBPAnimation_IO_error_src s _ _ rfl _ _ _ _ _
  · intro _ _ _ _ _ _; exact IMG_LoadWEBPAnimation_IO_error_src s _ _ rfl _ _ _ _ _
  · intro _ _ _ _ _ _ _ _ _ _; exact IMG_LoadWEBPAnimation_IO_error_src s _ _ rfl _ _ _ _ _
  · intro _ _ _ _ _ _ _ _ _ h; exact Option.noConfusion h

/-- A call of `IMG_LoadWEBP_IO` that returns a surface passed every stage. -/
theorem IMG_LoadWEBP_IO_some_stages (env : Env) (s : SDL_IOStream) :
    ( IMG_LoadWEBP_IO env (some s)).ret ≠ none →
      env.IMG_Init_WEBP = true ∧ (webp_getinfo (some s) (some SIZE_MAX)).is_WEBP = true ∧
      env.SDL_malloc (payload_size s) = true ∧ (payload s).length = payload_size s ∧
      ∃ f surface px, env.WebPGetFeaturesInternal (payload s) = some f ∧
        SDL_CreateSurface env 0 f.width f.height (select_format f) = some surface ∧
        (decode_into env f (payload s) surface).1 = some px := by
  apply IMG_LoadWEBP_IO_paths env s (fun r => r.ret ≠ none →
      env.IMG_Init_WEBP = true ∧ (webp_getinfo (some s) (some SIZE_MAX)).is_WEBP = true ∧
      env.SDL_malloc (payload_size s) = true ∧ (payload s).length = payload_size s ∧
      ∃ f surface px, env.WebPGetFeaturesInternal (payload s) = some f ∧
        SDL_CreateSurface env 0 f.width f.height (select_format f) = some surface ∧
        (decode_into env f (payload s) surface).1 = some px)
  · intro _ h; exact absurd rfl h
  · intro _ _ h; exact absurd rfl h
  · intro _ _ _ h; exact absurd rfl h
  · intro _ _ _ _ h; exact absurd rfl h
  · intro _ _ _ _ _ h; exact absurd rfl h
  · intro _ _ _ _ _ _ _ h; exact absurd rfl h
  · intro _ _ _ _ _ _ _ _ _ h; exact absurd rfl h
  · intro f surface px h1 h2 h3 h4 h5 h6 h7 _
    exact ⟨h1, h2, h3, h4, f, surface, px, h5, h6, h7⟩

/-- A call of `IMG_LoadWEBPAnimation_IO` that returns an animation passed every
stage up to the frame loop and left the loop without `goto error`. -/
theorem IMG_LoadWEBPAnimation_IO_some_stages (env : Env) (s : SDL_IOStream) :
    ( IMG_LoadWEBPAnimation_IO env (some s)).ret ≠ none →
      env.IMG_Init_WEBP = true ∧ (webp_getinfo (some s) (some SIZE_MAX)).is_WEBP = true ∧
      env.SDL_malloc (payload_size s) = true ∧ (payload s).length = payload_size s ∧
      ∃ f, env.WebPGetFeaturesInternal (payload s) = some f ∧
        (call_frames env s f).is_finished = true := by
  apply IMG_LoadWEBPAnimation_IO_paths env s (fun r => r.ret ≠ none →
      env.IMG_Init_WEBP = true ∧ (webp_getinfo (some s) (some SIZE_MAX)).is_WEBP = true ∧
      env.SDL_malloc (payload_size s) = true ∧ (payload s).length = payload_size s ∧
      ∃ f, env.WebPGetFeaturesInternal (payload s) = some f ∧
        (call_frames env s f).is_finished = true)
  · intro _ h; exact absurd rfl h
  · intro _ _ h; exact absurd rfl h
  · intro _ _ _ h; exact absurd rfl h
  · intro _ _ _ _ h; exact absurd rfl h
  · intro _ _ _ _ _ h; exact absurd rfl h
  · intro _ _ _ _ _ _ _ _ _ h; exact absurd rfl h
  · intro f anim1 tr2 h1 h2 h3 h4 h5 h6 _
    exact ⟨h1, h2, h3, h4, f, h5, by rw [h6]; rfl⟩

/-- The loop is left by `goto error` when the first iteration that does not
complete has its frame and is refused its surface. -/
theorem alloc_failure_exit (env : Env) (f : WebPBitstreamFeatures) (dmuxer : Option WebPDemuxer)
    (rem : Nat) (anim : IMG_Animation) (tr : List Event) (e : LoopExit) (n i : Nat)
    (hs : LoopSpec env f dmuxer rem 0 anim tr e n) (hi : i < rem)
    (hbefore : ∀ j, j < i → frame_decodes env f dmuxer j = true)
    (iter : WebPIterator) (hg : env.WebPDemuxGetFrame dmuxer (i : Int) = some iter)
    (hc : SDL_CreateSurface env i f.width f.height (select_format f) = none) :
    e.is_finished = false := by
  have hat : frame_decodes env f dmuxer i = false := by simp [frame_decodes, hg, hc]
  have hn := loop_stop_index env f dmuxer rem anim tr e n i hs hi hbefore hat
  subst hn
  cases hs.stop with
  | at_end h1 h2 => omega
  | fetch_failed h1 h2 h3 h4 h5 =>
    rw [Nat.zero_add, hg] at h2
    exact Option.noConfusion h2
  | alloc_failed it h1 h2 h3 h4 h5 h6 => exact h4
  | decode_failed it cu h1 h2 h3 h4 h5 h6 h7 =>
    rw [Nat.zero_add, hc] at h3
    exact Option.noConfusion h3

/-- C3: on a non-null stream, when any stage of `IMG_LoadWEBP_IO` fails (codec
initialisation, header match, buffer allocation, payload read, feature query,
surface allocation, pixel decode) the call returns `NULL` and the stream
position after it is the position at entry; the same holds of
`IMG_LoadWEBPAnimation_IO` for codec initialisation, header match, buffer
allocation, payload read, feature query and the allocation of the surface of a
frame `i` that the loop reaches (frames before `i` complete, frame `i` is
fetched). -/
theorem load_failure_returns_null (env : Env) (s : SDL_IOStream) :
    ((env.IMG_Init_WEBP = false ∨
      (webp_getinfo (some s) (some SIZE_MAX)).is_WEBP = false ∨
      env.SDL_malloc (payload_size s) = false ∨
      (payload s).length ≠ payload_size s ∨
      env.WebPGetFeaturesInternal (payload s) = none ∨
      (∃ f, env.WebPGetFeaturesInternal (payload s) = some f ∧
        SDL_CreateSurface env 0 f.width f.height (select_format f) = none) ∨
      (∃ f surface, env.WebPGetFeaturesInternal (payload s) = some f ∧
        SDL_CreateSurface env 0 f.width f.height (select_format f) = some surface ∧
        (decode_into env f (payload s) surface).1 = none)) →
      ( IMG_LoadWEBP_IO env (some s)).ret = none ∧
      ( IMG_LoadWEBP_IO env (some s)).src.map SDL_TellIO = some ( SDL_TellIO s)) ∧
    ((env.IMG_Init_WEBP = false ∨
      (webp_getinfo (some s) (some SIZE_MAX)).is_WEBP = false ∨
      env.SDL_malloc (payload_size s) = false ∨
      (payload s).length ≠ payload_size s ∨
      env.WebPGetFeaturesInternal (payload s) = none ∨
      (∃ f i iter, env.WebPGetFeaturesInternal (payload s) = some f ∧
        i < (call_count env s).toNat ∧
        (∀ j, j < i → frame_decodes env f (call_dmuxer env s) j = true) ∧
        env.WebPDemuxGetFrame (call_dmuxer env s) (i : Int) = some iter ∧
        SDL_CreateSurface env i f.width f.height (select_format f) = none)) →
      ( IMG_LoadWEBPAnimation_IO env (some s)).ret = none ∧
      ( IMG_LoadWEBPAnimation_IO env (some s)).src.map SDL_TellIO = some ( SDL_TellIO s)) := by
  constructor
  · intro hfail
    have hnone : ( IMG_LoadWEBP_IO env (some s)).ret = none := by
      by_contra hne
      obtain ⟨h1, h2, h3, h4, f, surface, px, h5, h6, h7⟩ :=
        IMG_LoadWEBP_IO_some_stages env s hne
      rcases hfail with h | h | h | h | h | ⟨f2, h, h'⟩ | ⟨f2, sf2, h, h', h''⟩
      · rw [h1] at h; exact Bool.noConfusion h
      · rw [h2] at h; exact Bool.noConfusion h
      · rw [h3] at h; exact Bool.noConfusion h
      · exact h h4
      · rw [h5] at h; exact Option.noConfusion h
      · rw [h5] at h; cases h; rw [h6] at h'; exact Option.noConfusion h'
      · rw [h5] at h; cases h; rw [h6] at h'; cases h'; rw [h7] at h''
        exact Option.noConfusion h''
    exact ⟨hnone, by rw [IMG_LoadWEBP_IO_null_src env s hnone]; rfl⟩
  · intro hfail
    have hnone : ( IMG_LoadWEBPAnimation_IO env (some s)).ret = none := by
      by_contra hne
      obtain ⟨h1, h2, h3, h4, f, h5, h6⟩ := IMG_LoadWEBPAnimation_IO_some_stages env s hne
      rcases hfail with h | h | h | h | h | ⟨f2, i, iter, h, hi, hb, hg, hc⟩
      · rw [h1] at h; exact Bool.noConfusion h
      · rw [h2] at h; exact Bool.noConfusion h
      · rw [h3] at h; exact Bool.noConfusion h
      · exact h h4
      · rw [h5] at h; exact Option.noConfusion h
      · rw [h5] at h; cases h
        obtain ⟨n, hn⟩ := call_frames_spec env s f
        have := alloc_failure_exit env f _ _ _ _ _ n i hn hi hb iter hg hc
        rw [h6] at this
        exact Bool.noConfusion this
    exact ⟨hnone, by rw [IMG_LoadWEBPAnimation_IO_null_src env s hnone]; rfl⟩

/-- C3 at work: `IMG_LoadWEBP_IO` on three bytes that are no header, and
`IMG_LoadWEBPAnimation_IO` when the surface of frame 1 cannot be allocated,
return `NULL` with the stream at position 1, where it was. -/
theorem load_failure_returns_null_witness :
    (( IMG_LoadWEBP_IO sample_env (some ⟨[1, 2, 3], 1, 3⟩)).ret = none ∧
      ( IMG_LoadWEBP_IO sample_env (some ⟨[1, 2, 3], 1, 3⟩)).src.map SDL_TellIO = some 1) ∧
    (( IMG_LoadWEBPAnimation_IO (env_surface_fails_at 1) (some (sample_stream 32 5))).ret = none ∧
      ( IMG_LoadWEBPAnimation_IO (env_surface_fails_at 1) (some (sample_stream 32 5))).src.map
        SDL_TellIO = some 1) :=
  ⟨(load_failure_returns_null sample_env ⟨[1, 2, 3], 1, 3⟩).1 (Or.inr (Or.inl (by decide))),
   (load_failure_returns_null (env_surface_fails_at 1) (sample_stream 32 5)).2
     (Or.inr (Or.inr (Or.inr (Or.inr (Or.inr
       ⟨⟨2, 1, false⟩, 1, ⟨[1], 20⟩, by decide, by decide,
         fun j hj => by
           obtain rfl : j = 0 := by omega
           decide,
         by decide, by decide⟩)))))⟩

theorem is_WEBP_false_of_mismatch (s : SDL_IOStream) (datasize : Option Nat)
    (h : ¬ (s.pos + 20 ≤ s.data.length ∧ magic_matches ((s.data.drop s.pos).take 20) = true)) :
    (webp_getinfo (some s) datasize).is_WEBP = false := by
  rw [webp_getinfo_is_WEBP, ← Bool.not_eq_true]
  intro hm
  simp only [Bool.and_eq_true, decide_eq_true_eq, window_length] at hm
  exact h hm

theorem is_WEBP_datasize_irrelevant (s : SDL_IOStream) (d1 d2 : Option Nat) :
    (webp_getinfo (some s) d1).is_WEBP = (webp_getinfo (some s) d2).is_WEBP := by
  rw [webp_getinfo_is_WEBP, webp_getinfo_is_WEBP]

/-- C4: with the codec initialised, a stream whose 20-byte window is missing or
does not match makes `IMG_isWEBP` answer false and makes `IMG_LoadWEBP_IO` and
`IMG_LoadWEBPAnimation_IO` return `NULL` with the errors "Invalid WEBP" and
"Invalid WEBP Animation"; a matching stream whose payload read (made once the
buffer is allocated) returns fewer bytes than `raw_data_size` makes them return
`NULL` with "Failed to read WEBP" and "Failed to read WEBP Animation". -/
theorem first_failing_stage_error (env : Env) (s : SDL_IOStream)
    (hinit : env.IMG_Init_WEBP = true) :
    (¬ (s.pos + 20 ≤ s.data.length ∧ magic_matches ((s.data.drop s.pos).take 20) = true) →
      (IMG_isWEBP (some s)).1 = false ∧
      ( IMG_LoadWEBP_IO env (some s)).ret = none ∧
      ( IMG_LoadWEBP_IO env (some s)).error = some "Invalid WEBP" ∧
      ( IMG_LoadWEBPAnimation_IO env (some s)).ret = none ∧
      ( IMG_LoadWEBPAnimation_IO env (some s)).error = some "Invalid WEBP Animation") ∧
    ((IMG_isWEBP (some s)).1 = true → env.SDL_malloc (payload_size s) = true →
      (payload s).length < payload_size s →
      ( IMG_LoadWEBP_IO env (some s)).ret = none ∧
      ( IMG_LoadWEBP_IO env (some s)).error = some "Failed to read WEBP" ∧
      ( IMG_LoadWEBPAnimation_IO env (some s)).ret = none ∧
      ( IMG_LoadWEBPAnimation_IO env (some s)).error = some "Failed to read WEBP Animation") := by
  constructor
  · intro hmis
    have hfalse := is_WEBP_false_of_mismatch s (some SIZE_MAX) hmis
    have single : ( IMG_LoadWEBP_IO env (some s)).ret = none ∧
        ( IMG_LoadWEBP_IO env (some s)).error = some "Invalid WEBP" := by
      apply IMG_LoadWEBP_IO_paths env s (fun r => r.ret = none ∧ r.error = some "Invalid WEBP")
      · intro h; rw [hinit] at h; exact Bool.noConfusion h
      · intro _ _; exact ⟨rfl, rfl⟩
      · intro _ h; rw [hfalse] at h; exact Bool.noConfusion h
      · intro _ h; rw [hfalse] at h; exact Bool.noConfusion h
      · intro _ h; rw [hfalse] at h; exact Bool.noConfusion h
      · intro _ _ h; rw [hfalse] at h; exact Bool.noConfusion h
      · intro _ _ _ h; rw [hfalse] at h; exact Bool.noConfusion h
      · intro _ _ _ _ h; rw [hfalse] at h; exact Bool.noConfusion h
    have anim : ( IMG_LoadWEBPAnimation_IO env (some s)).ret = none ∧
        ( IMG_LoadWEBPAnimation_IO env (some s)).error = some "Invalid WEBP Animation" := by
      apply IMG_LoadWEBPAnimation_IO_paths env s
        (fun r => r.ret = none ∧ r.error = some "Invalid WEBP Animation")
      · intro h; rw [hinit] at h; exact Bool.noConfusion h
      · intro _ _; exact ⟨rfl, rfl⟩
      · intro _ h; rw [hfalse] at h; exact Bool.noConfusion h
      · intro _ h; rw [hfalse] at h; exact Bool.noConfusion h
      · intro _ h; rw [hfalse] at h; exact Bool.noConfusion h
      · intro _ _ _ _ h; rw [hfalse] at h; exact Bool.noConfusion h
      · intro _ _ _ _ h; rw [hfalse] at h; exact Bool.noConfusion h
    exact ⟨is_WEBP_false_of_mismatch s none hmis, single.1, single.2, anim.1, anim.2⟩
  · intro hmatch hmalloc hshort
    have htrue : (webp_getinfo (some s) (some SIZE_MAX)).is_WEBP = true := by
      rw [is_WEBP_datasize_irrelevant s (some SIZE_MAX) none]; exact hmatch
    have hne : (payload s).length ≠ payload_size s := Nat.ne_of_lt hshort
    have single : ( IMG_LoadWEBP_IO env (some s)).ret = none ∧
        ( IMG_LoadWEBP_IO env (some s)).error = some "Failed to read WEBP" := by
      apply IMG_LoadWEBP_IO_paths env s
        (fun r => r.ret = none ∧ r.error = some "Failed to read WEBP")
      · intro h; rw [hinit] at h; exact Bool.noConfusion h
      · intro _ h; rw [htrue] at h; exact Bool.noConfusion h
      · intro _ _ h; rw [hmalloc] at h; exact Bool.noConfusion h
      · intro _ _ _ _; exact ⟨rfl, rfl⟩
      · intro _ _ _ h; exact absurd h hne
      · intro _ _ _ _ h; exact absurd h hne
      · intro _ _ _ _ _ h; exact absurd h hne
      · intro _ _ _ _ _ _ h; exact absurd h hne
    have anim : ( IMG_LoadWEBPAnimation_IO env (some s)).ret = none ∧
        ( IMG_LoadWEBPAnimation_IO env (some s)).error = some "Failed to read WEBP Animation" := by
      apply IMG_LoadWEBPAnimation_IO_paths env s
        (fun r => r.ret = none ∧ r.error = some "Failed to read WEBP Animation")
      · intro h; rw [hinit] at h; exact Bool.noConfusion h
      · intro _ h; rw [htrue] at h; exact Bool.noConfusion h
      · intro _ _ h; rw [hmalloc] at h; exact Bool.noConfusion h
      · intro _ _ _ _; exact ⟨rfl, rfl⟩
      · intro _ _ _ h; exact absurd h hne
      · intro _ _ _ _ _ _ h; exact absurd h hne
      · intro _ _ _ _ _ _ h; exact absurd h hne
    exact ⟨single.1, single.2, anim.1, anim.2⟩

/-- C4 at work: three bytes that are no header give the format errors, and a
header on a stream that reports 100 bytes and holds 21 gives the read errors. -/
theorem first_failing_stage_error_witness :
    ((IMG_isWEBP (some ⟨[1, 2, 3], 1, 3⟩)).1 = false ∧
      ( IMG_LoadWEBP_IO sample_env (some ⟨[1, 2, 3], 1, 3⟩)).ret = none ∧
      ( IMG_LoadWEBP_IO sample_env (some ⟨[1, 2, 3], 1, 3⟩)).error = some "Invalid WEBP" ∧
      ( IMG_LoadWEBPAnimation_IO sample_env (some ⟨[1, 2, 3], 1, 3⟩)).ret = none ∧
      ( IMG_LoadWEBPAnimation_IO sample_env (some ⟨[1, 2, 3], 1, 3⟩)).error
        = some "Invalid WEBP Animation") ∧
    (( IMG_LoadWEBP_IO sample_env (some truncated_stream)).ret = none ∧
      ( IMG_LoadWEBP_IO sample_env (some truncated_stream)).error = some "Failed to read WEBP" ∧
      ( IMG_LoadWEBPAnimation_IO sample_env (some truncated_stream)).ret = none ∧
      ( IMG_LoadWEBPAnimation_IO sample_env (some truncated_stream)).error
        = some "Failed to read WEBP Animation") :=
  ⟨(first_failing_stage_error sample_env ⟨[1, 2, 3], 1, 3⟩ rfl).1 (by decide),
   (first_failing_stage_error sample_env truncated_stream rfl).2 (by decide) rfl (by decide)⟩

/-- A surface made by `SDL_CreateSurface` has the size and format asked for. -/
theorem SDL_CreateSurface_some (env : Env) (k : Nat) (w h : Int) (format : SDL_PixelFormat)
    (surface : SDL_Surface) (hc : SDL_CreateSurface env k w h format = some surface) :
    surface.w = w ∧ surface.h = h ∧ surface.format = format ∧ surface.pixels = none := by
  unfold SDL_CreateSurface at hc
  split_ifs at hc
  cases hc
  exact ⟨rfl, rfl, rfl, rfl⟩

theorem loop_events_counts (evs : List Event)
    (h : ∀ ev ∈ evs, ev = Event.create_surface ∨ ev = Event.decode_rgba ∨ ev = Event.decode_rgb) :
    releases evs = 0 ∧ allocations evs = 0 := by
  constructor
  · unfold releases
    rw [List.count_eq_zero]
    intro hmem
    rcases h _ hmem with h | h | h <;> exact Event.noConfusion h
  · unfold allocations
    rw [List.countP_eq_zero]
    intro ev hmem
    rcases h ev hmem with h | h | h <;> subst h <;> simp [Event.is_malloc_raw_data]

theorem releases_append (a b : List Event) : releases (a ++ b) = releases a + releases b := by
  simp [releases]

theorem allocations_append (a b : List Event) :
    allocations (a ++ b) = allocations a + allocations b := by
  simp [allocations]

theorem demux_delete_if_counts (dmuxer : Option WebPDemuxer) (tr : List Event) :
    releases (demux_delete_if dmuxer tr) = releases tr ∧
      allocations (demux_delete_if dmuxer tr) = allocations tr := by
  unfold demux_delete_if
  split_ifs
  · simp [releases, allocations, Event.is_malloc_raw_data]
  · exact ⟨rfl, rfl⟩

/-- The memory effects of the frame loop of a call: the allocation of the
payload buffer, then surface creations and decode calls only. -/
theorem call_frames_counts (env : Env) (s : SDL_IOStream) (f : WebPBitstreamFeatures) :
    releases (call_frames env s f).trace = 0 ∧ allocations (call_frames env s f).trace = 1 := by
  obtain ⟨n, hn⟩ := call_frames_spec env s f
  obtain ⟨evs, he, hevs⟩ := hn.trace
  obtain ⟨h1, h2⟩ := loop_events_counts evs hevs
  rw [he, releases_append, allocations_append, h1, h2]
  simp [releases, allocations, Event.is_malloc_raw_data]

/-- C9: whatever path `IMG_LoadWEBP_IO` and `IMG_LoadWEBPAnimation_IO` take (a
`NULL` stream included), the payload buffer is allocated at most once and
`SDL_free(raw_data)` has been called exactly as often as the buffer was
allocated when the call returns; in `IMG_LoadWEBP_IO` at most one surface is
created, a call that returns `NULL` has destroyed it exactly when it was
created, and a call that returns a surface has not destroyed any. -/
theorem raw_data_released_once (env : Env) (src : Option SDL_IOStream) :
    (allocations ( IMG_LoadWEBP_IO env src).trace ≤ 1 ∧
      releases ( IMG_LoadWEBP_IO env src).trace = allocations ( IMG_LoadWEBP_IO env src).trace) ∧
    (allocations ( IMG_LoadWEBPAnimation_IO env src).trace ≤ 1 ∧
      releases ( IMG_LoadWEBPAnimation_IO env src).trace =
        allocations ( IMG_LoadWEBPAnimation_IO env src).trace) ∧
    surfaces_created ( IMG_LoadWEBP_IO env src).trace ≤ 1 ∧
    (( IMG_LoadWEBP_IO env src).ret = none →
      surfaces_destroyed ( IMG_LoadWEBP_IO env src).trace =
        surfaces_created ( IMG_LoadWEBP_IO env src).trace) ∧
    (( IMG_LoadWEBP_IO env src).ret ≠ none →
      surfaces_created ( IMG_LoadWEBP_IO env src).trace = 1 ∧
      surfaces_destroyed ( IMG_LoadWEBP_IO env src).trace = 0) := by
  cases src with
  | none =>
    simp [ IMG_LoadWEBP_IO, IMG_LoadWEBPAnimation_IO, allocations, releases, surfaces_created,
      surfaces_destroyed]
  | some s =>
    have single : (allocations ( IMG_LoadWEBP_IO env (some s)).trace ≤ 1 ∧
        releases ( IMG_LoadWEBP_IO env (some s)).trace =
          allocations ( IMG_LoadWEBP_IO env (some s)).trace) ∧
        surfaces_created ( IMG_LoadWEBP_IO env (some s)).trace ≤ 1 ∧
        (( IMG_LoadWEBP_IO env (some s)).ret = none →
          surfaces_destroyed ( IMG_LoadWEBP_IO env (some s)).trace =
            surfaces_created ( IMG_LoadWEBP_IO env (some s)).trace) ∧
        (( IMG_LoadWEBP_IO env (some s)).ret ≠ none →
          surfaces_created ( IMG_LoadWEBP_IO env (some s)).trace = 1 ∧
          surfaces_destroyed ( IMG_LoadWEBP_IO env (some s)).trace = 0) := by
      apply IMG_LoadWEBP_IO_paths env s (fun r =>
        (allocations r.trace ≤ 1 ∧ releases r.trace = allocations r.trace) ∧
        surfaces_created r.trace ≤ 1 ∧
        (r.ret = none → surfaces_destroyed r.trace = surfaces_created r.trace) ∧
        (r.ret ≠ none → surfaces_created r.trace = 1 ∧ surfaces_destroyed r.trace = 0))
      · intro _
        simp [IMG_LoadWEBP_IO_error, allocations, releases, surfaces_created, surfaces_destroyed]
      · intro _ _
        simp [IMG_LoadWEBP_IO_error, allocations, releases, surfaces_created, surfaces_destroyed,
          Event.is_malloc_raw_data]
      · intro _ _ _
        simp [IMG_LoadWEBP_IO_error, allocations, releases, surfaces_created, surfaces_destroyed,
          Event.is_malloc_raw_data]
      · intro _ _ _ _
        simp [IMG_LoadWEBP_IO_error, allocations, releases, surfaces_created, surfaces_destroyed,
          Event.is_malloc_raw_data]
      · intro _ _ _ _ _
        simp [IMG_LoadWEBP_IO_error, allocations, releases, surfaces_created, surfaces_destroyed,
          Event.is_malloc_raw_data]
      · intro _ _ _ _ _ _ _
        simp [IMG_LoadWEBP_IO_error, allocations, releases, surfaces_created, surfaces_destroyed,
          Event.is_malloc_raw_data]
      · intro f surface _ _ _ _ _ _ _
        rcases decode_into_event env f (payload s) surface with h | h <;>
          simp [IMG_LoadWEBP_IO_error, allocations, releases, surfaces_created,
            surfaces_destroyed, Event.is_malloc_raw_data, h]
      · intro f surface px _ _ _ _ _ _ _
        rcases decode_into_event env f (payload s) surface with h | h <;>
          simp [allocations, releases, surfaces_created, surfaces_destroyed,
            Event.is_malloc_raw_data, h]
    have anim : allocations ( IMG_LoadWEBPAnimation_IO env (some s)).trace ≤ 1 ∧
        releases ( IMG_LoadWEBPAnimation_IO env (some s)).trace =
          allocations ( IMG_LoadWEBPAnimation_IO env (some s)).trace := by
      apply IMG_LoadWEBPAnimation_IO_paths env s (fun r =>
        allocations r.trace ≤ 1 ∧ releases r.trace = allocations r.trace)
      · intro _
        simp [IMG_LoadWEBPAnimation_IO_error, demux_delete_if, allocations, releases]
      · intro _ _
        simp [IMG_LoadWEBPAnimation_IO_error, demux_delete_if, allocations, releases,
          Event.is_malloc_raw_data]
      · intro _ _ _
        simp [IMG_LoadWEBPAnimation_IO_error, demux_delete_if, allocations, releases,
          Event.is_malloc_raw_data]
      · intro _ _ _ _
        simp [IMG_LoadWEBPAnimation_IO_error, demux_delete_if, allocations, releases,
          Event.is_malloc_raw_data]
      · intro _ _ _ _ _
        simp [IMG_LoadWEBPAnimation_IO_error, demux_delete_if, allocations, releases,
          Event.is_malloc_raw_data]
      · intro f anim1 tr2 _ _ _ _ _ hl
        have hc := call_frames_counts env s f
        rw [hl] at hc
        simp only [LoopExit.trace] at hc
        obtain ⟨hd1, hd2⟩ := demux_delete_if_counts (call_dmuxer env s)
          (tr2 ++ [Event.free_animation])
        simp only [IMG_LoadWEBPAnimation_IO_error, Option.isSome_some, if_true,
          releases_append, allocations_append, hd1, hd2, hc.1, hc.2]
        simp [releases, allocations, Event.is_malloc_raw_data]
      · intro f anim1 tr2 _ _ _ _ _ hl
        have hc := call_frames_counts env s f
        rw [hl] at hc
        simp only [LoopExit.trace] at hc
        obtain ⟨hd1, hd2⟩ := demux_delete_if_counts (call_dmuxer env s) tr2
        simp only [releases_append, allocations_append, hd1, hd2, hc.1, hc.2]
        simp [releases, allocations, Event.is_malloc_raw_data]
    exact ⟨single.1, anim, single.2.1, single.2.2.1, single.2.2.2⟩

/-- C9 at work: when the decode call fails, the buffer allocated once is
released once and the surface created is destroyed; when it succeeds, the
buffer is released once and the surface is kept. -/
theorem raw_data_released_once_witness :
    (surfaces_destroyed ( IMG_LoadWEBP_IO env_no_decode (some (sample_stream 32 5))).trace =
      surfaces_created ( IMG_LoadWEBP_IO env_no_decode (some (sample_stream 32 5))).trace ∧
      surfaces_created ( IMG_LoadWEBP_IO env_no_decode (some (sample_stream 32 5))).trace = 1 ∧
      releases ( IMG_LoadWEBP_IO env_no_decode (some (sample_stream 32 5))).trace = 1) ∧
    (surfaces_created ( IMG_LoadWEBP_IO sample_env (some (sample_stream 32 5))).trace = 1 ∧
      surfaces_destroyed ( IMG_LoadWEBP_IO sample_env (some (sample_stream 32 5))).trace = 0) ∧
    releases ( IMG_LoadWEBPAnimation_IO sample_env (some (sample_stream 32 5))).trace = 1 :=
  ⟨⟨(raw_data_released_once env_no_decode (some (sample_stream 32 5))).2.2.2.1 (by decide),
     by decide, by decide⟩,
   (raw_data_released_once sample_env (some (sample_stream 32 5))).2.2.2.2 (by decide),
   by decide⟩

/-! ## The frames of an animation -/

theorem int_of_uint32_small (n : Nat) (h : n < 2 ^ 31) : int_of_uint32 n = (n : Int) := by
  unfold int_of_uint32
  have h1 : n % 2 ^ 32 = n := Nat.mod_eq_of_lt (by omega)
  rw [h1, if_pos h]

/-- The animation a successful call returns is the one its frame loop leaves. -/
theorem IMG_LoadWEBPAnimation_IO_some (env : Env) (s : SDL_IOStream) (anim : IMG_Animation)
    (h : ( IMG_LoadWEBPAnimation_IO env (some s)).ret = some anim) :
    ∃ f, env.WebPGetFeaturesInternal (payload s) = some f ∧
      (call_frames env s f).is_finished = true ∧ (call_frames env s f).anim = anim ∧
      ( IMG_LoadWEBPAnimation_IO env (some s)).error = none := by
  revert h
  apply IMG_LoadWEBPAnimation_IO_paths env s (fun r => r.ret = some anim →
    ∃ f, env.WebPGetFeaturesInternal (payload s) = some f ∧
      (call_frames env s f).is_finished = true ∧ (call_frames env s f).anim = anim ∧
      r.error = none)
  · intro _ h; exact Option.noConfusion h
  · intro _ _ h; exact Option.noConfusion h
  · intro _ _ _ h; exact Option.noConfusion h
  · intro _ _ _ _ h; exact Option.noConfusion h
  · intro _ _ _ _ _ h; exact Option.noConfusion h
  · intro _ _ _ _ _ _ _ _ _ h; exact Option.noConfusion h
  · intro f anim1 tr2 _ _ _ _ hf hl hret
    simp only [Option.some.injEq] at hret
    subst hret
    exact ⟨f, hf, by rw [hl]; rfl, by rw [hl]; rfl, rfl⟩

theorem call_anim_slot (env : Env) (s : SDL_IOStream) (f : WebPBitstreamFeatures) (j : Nat) :
    ((call_anim env s f).frames[j]? =
      if j < (call_count env s).toNat then some none else none) ∧
    ((call_anim env s f).delays[j]? =
      if j < (call_count env s).toNat then some 0 else none) := by
  simp only [call_anim, List.getElem?_replicate, and_self]

/-- What holds of an animation returned by `IMG_LoadWEBPAnimation_IO` whatever
the demultiplexer answers, the frame count it reports fitting an `int`:
`frames` and `delays` have length `count`, which is that frame count; width
and height are those of the feature query; every surface in `frames` has that
width and height and the format selected from `has_alpha`; and when no frame
number below the count has a fetch or decode error, every slot of `frames`
holds a surface and `delays[i]` is the duration the demultiplexer answered for
the frame number `i` that the loop passed to it. -/
theorem animation_frames_invariant (env : Env) (s : SDL_IOStream) (anim : IMG_Animation)
    (h : ( IMG_LoadWEBPAnimation_IO env (some s)).ret = some anim)
    (hcount : env.WebPDemuxGetI (call_dmuxer env s) < 2 ^ 31) :
    (anim.frames.length : Int) = anim.count ∧ (anim.delays.length : Int) = anim.count ∧
    anim.count = (env.WebPDemuxGetI (call_dmuxer env s) : Int) ∧
    ∃ f, env.WebPGetFeaturesInternal (payload s) = some f ∧
      anim.w = f.width ∧ anim.h = f.height ∧
      (∀ surface, some surface ∈ anim.frames →
        surface.w = f.width ∧ surface.h = f.height ∧
        surface.format = (if f.has_alpha then SDL_PixelFormat.SDL_PIXELFORMAT_RGBA32
          else SDL_PixelFormat.SDL_PIXELFORMAT_RGB24)) ∧
      ((∀ j, j < env.WebPDemuxGetI (call_dmuxer env s) →
          frame_no_error env f (call_dmuxer env s) j = true) →
        ∀ i, i < env.WebPDemuxGetI (call_dmuxer env s) →
          (∃ surface, anim.frames[i]? = some (some surface)) ∧
          ∃ iter, env.WebPDemuxGetFrame (call_dmuxer env s) (i : Int) = some iter ∧
            anim.delays[i]? = some iter.duration) := by
  obtain ⟨f, hf, hfin, hanim, _⟩ := IMG_LoadWEBPAnimation_IO_some env s anim h
  obtain ⟨n, hn⟩ := call_frames_spec env s f
  subst hanim
  have hcnt : call_count env s = (env.WebPDemuxGetI (call_dmuxer env s) : Int) :=
    int_of_uint32_small _ hcount
  have hrem : (call_count env s).toNat = env.WebPDemuxGetI (call_dmuxer env s) := by
    rw [hcnt]; exact Int.toNat_natCast _
  have hfmt : select_format f = (if f.has_alpha then SDL_PixelFormat.SDL_PIXELFORMAT_RGBA32
      else SDL_PixelFormat.SDL_PIXELFORMAT_RGB24) := by
    unfold select_format
    split_ifs <;> rfl
  have hlen_f : (call_frames env s f).anim.frames.length = env.WebPDemuxGetI (call_dmuxer env s) := by
    rw [hn.frames_length, ← hrem]; simp [call_anim]
  have hlen_d : (call_frames env s f).anim.delays.length = env.WebPDemuxGetI (call_dmuxer env s) := by
    rw [hn.delays_length, ← hrem]; simp [call_anim]
  have hc : (call_frames env s f).anim.count = (env.WebPDemuxGetI (call_dmuxer env s) : Int) := by
    rw [hn.count_eq, ← hcnt]; rfl
  refine ⟨by rw [hlen_f, hc], by rw [hlen_d, hc], hc, f, hf, hn.w_eq, hn.h_eq, ?_, ?_⟩
  · intro surface hmem
    obtain ⟨j, hj⟩ := List.mem_iff_getElem?.1 hmem
    have hinit := (call_anim_slot env s f j).1
    rcases Nat.lt_trichotomy j n with hlt | heq | hgt
    · obtain ⟨iter, curr, px, _, hcr, _, hslot, _⟩ := hn.completed j (Nat.zero_le _) (by omega)
      rw [hslot] at hj
      simp only [Option.some.injEq] at hj
      subst hj
      obtain ⟨hw, hh, hfo, _⟩ := SDL_CreateSurface_some env j _ _ _ curr hcr
      exact ⟨hw, hh, by rw [← hfmt]; exact hfo⟩
    · subst heq
      cases hn.stop with
      | at_end h1 h2 =>
        have : j < (call_frames env s f).anim.frames.length := by
          by_contra hge
          rw [List.getElem?_eq_none (by omega)] at hj
          exact Option.noConfusion hj
        omega
      | fetch_failed h1 h2 h3 h4 h5 =>
        rw [Nat.zero_add] at h4
        rw [h4, hinit] at hj
        split_ifs at hj
        simp at hj
      | alloc_failed it h1 h2 h3 h4 h5 h6 =>
        rw [hfin] at h4
        exact Bool.noConfusion h4
      | decode_failed it cu h1 h2 h3 h4 h5 h6 h7 =>
        rw [Nat.zero_add] at h3 h6
        rw [h6] at hj
        simp only [Option.some.injEq] at hj
        subst hj
        obtain ⟨hw, hh, hfo, _⟩ := SDL_CreateSurface_some env j _ _ _ cu h3
        exact ⟨hw, hh, by rw [← hfmt]; exact hfo⟩
    · have := (hn.untouched j (Or.inr (by omega))).1
      rw [this, hinit] at hj
      split_ifs at hj
      simp at hj
  · intro hall i hi
    have hnrem : n = (call_count env s).toNat := by
      cases hn.stop with
      | at_end h1 h2 => exact h1
      | fetch_failed h1 h2 h3 h4 h5 =>
        exfalso
        have := hall n (by omega)
        rw [Nat.zero_add] at h2
        simp [frame_no_error, h2] at this
      | alloc_failed it h1 h2 h3 h4 h5 h6 =>
        rw [hfin] at h4
        exact Bool.noConfusion h4
      | decode_failed it cu h1 h2 h3 h4 h5 h6 h7 =>
        exfalso
        have := hall n (by omega)
        rw [Nat.zero_add] at h2 h3
        simp [frame_no_error, h2, h3, h4] at this
    obtain ⟨iter, curr, px, hg, _, _, hslot, hdel⟩ :=
      hn.completed i (Nat.zero_le _) (by omega)
    exact ⟨⟨_, hslot⟩, iter, hg, hdel⟩

/-- The animation invariant on the demultiplexer stand-in: three slots of
2 x 1 pixels with the delays 10, 20, 30. -/
theorem animation_frames_invariant_witness :
    ( IMG_LoadWEBPAnimation_IO sample_env (some (sample_stream 32 5))).ret
      = some sample_animation ∧
    ((sample_animation.frames.length : Int) = sample_animation.count ∧
      (sample_animation.delays.length : Int) = sample_animation.count ∧
      sample_animation.count = (sample_env.WebPDemuxGetI
        (call_dmuxer sample_env (sample_stream 32 5)) : Int)) :=
  ⟨by decide,
   (animation_frames_invariant sample_env (sample_stream 32 5) sample_animation (by decide)
      (by decide)).1,
   (animation_frames_invariant sample_env (sample_stream 32 5) sample_animation (by decide)
      (by decide)).2.1,
   (animation_frames_invariant sample_env (sample_stream 32 5) sample_animation (by decide)
      (by decide)).2.2.1⟩

/-- C6: the code misses the frame order.  The loop passes `frame_idx`, which
runs from 0, to `WebPDemuxGetFrame`, whose frame numbers run from 1 and whose
number 0 is the last frame.  On a container of three frames with the durations
10, 20, 30 and no fetch or decode error, the call returns three non-null slots
of the global width and height, as claimed, but `delays` is 30, 10, 20 and
`frames` holds the third, first and second frame: `delays[0]` is not the
duration of the first frame. -/
theorem animation_frames_out_of_order :
    three_frames.map (fun it => it.duration) = [10, 20, 30] ∧
    (∀ j, j < 3 → frame_no_error (libwebp_env three_frames) ⟨2, 1, false⟩ (some ⟨1⟩) j = true) ∧
    ( IMG_LoadWEBPAnimation_IO (libwebp_env three_frames) (some (sample_stream 32 5))).ret =
      some rotated_animation ∧
    rotated_animation.delays = [30, 10, 20] ∧
    rotated_animation.delays[0]? ≠ (three_frames.map (fun it => it.duration))[0]? := by
  refine ⟨by decide, ?_, by decide, by decide, by decide⟩
  intro j hj
  have : j = 0 ∨ j = 1 ∨ j = 2 := by omega
  rcases this with rfl | rfl | rfl <;> decide

/-! ## Early stop of the frame loop -/

/-- C10, as stated, fails: with a codec whose decode routine returns `NULL` on
the fragment of frame 1 (frame 0 decodes), the call returns the animation, and
slot 1 of `frames` holds the surface created for frame 1, not decoded, and slot
1 of `delays` holds 20, the duration of frame 1; neither slot is unset. -/
theorem decode_failure_leaves_slot_set :
    (decode_into (env_decode_fails_at 1) ⟨2, 1, false⟩ [1] (sample_surface none)).1 = none ∧
    frame_decodes (env_decode_fails_at 1) ⟨2, 1, false⟩ (some ⟨1⟩) 0 = true ∧
    ( IMG_LoadWEBPAnimation_IO (env_decode_fails_at 1) (some (sample_stream 32 5))).ret =
      some stalled_animation ∧
    ¬ (∀ anim, ( IMG_LoadWEBPAnimation_IO (env_decode_fails_at 1)
          (some (sample_stream 32 5))).ret = some anim →
        anim.frames[1]? = some none ∧ anim.delays[1]? = some 0) := by
  refine ⟨by decide, by decide, by decide, ?_⟩
  intro hall
  have := hall stalled_animation (by decide)
  exact absurd this.2 (by decide)

/-- Past the feature query, a call whose frame loop is left without
`goto error` returns the animation of the loop and raises no error. -/
theorem reached_finished (env : Env) (s : SDL_IOStream) (f : WebPBitstreamFeatures)
    (hinit : env.IMG_Init_WEBP = true)
    (hm : (webp_getinfo (some s) (some SIZE_MAX)).is_WEBP = true)
    (ha : env.SDL_malloc (payload_size s) = true)
    (hr : (payload s).length = payload_size s)
    (hf : env.WebPGetFeaturesInternal (payload s) = some f)
    (hfin : (call_frames env s f).is_finished = true) :
    ( IMG_LoadWEBPAnimation_IO env (some s)).ret = some (call_frames env s f).anim ∧
      ( IMG_LoadWEBPAnimation_IO env (some s)).error = none := by
  rw [IMG_LoadWEBPAnimation_IO_reached env s f hinit hm ha hr hf]
  cases hcf : call_frames env s f with
  | finished a tr => exact ⟨rfl, rfl⟩
  | alloc_failed a tr =>
    rw [hcf] at hfin
    exact Bool.noConfusion hfin

/-- C10, amended: in a call that reaches the frame loop, let frame `i` be below
the count and let every frame before it get its frame, surface and pixels.
If frame `i` cannot be fetched, the call returns the animation without error,
slots `i` to `count - 1` of `frames` and `delays` are unset (null, 0) and slots
below `i` hold the decoded frames and their durations.  If the decode of frame
`i` returns `NULL`, the call returns the animation without error as well, slot
`i` holds the surface created for frame `i` and the duration of frame `i`
(both stored before the decode call), slots `i + 1` to `count - 1` are unset
and slots below `i` hold the decoded frames and their durations. -/
theorem frame_loop_early_stop (env : Env) (s : SDL_IOStream) (f : WebPBitstreamFeatures)
    (hinit : env.IMG_Init_WEBP = true)
    (hm : (webp_getinfo (some s) (some SIZE_MAX)).is_WEBP = true)
    (ha : env.SDL_malloc (payload_size s) = true)
    (hr : (payload s).length = payload_size s)
    (hf : env.WebPGetFeaturesInternal (payload s) = some f)
    (i : Nat) (hi : i < (call_count env s).toNat)
    (hbefore : ∀ j, j < i → frame_decodes env f (call_dmuxer env s) j = true) :
    (env.WebPDemuxGetFrame (call_dmuxer env s) (i : Int) = none →
      ∃ anim, ( IMG_LoadWEBPAnimation_IO env (some s)).ret = some anim ∧
        ( IMG_LoadWEBPAnimation_IO env (some s)).error = none ∧
        (∀ j, i ≤ j → j < (call_count env s).toNat →
          anim.frames[j]? = some none ∧ anim.delays[j]? = some 0) ∧
        (∀ j, j < i → ∃ iter curr px,
          env.WebPDemuxGetFrame (call_dmuxer env s) (j : Int) = some iter ∧
          SDL_CreateSurface env j f.width f.height (select_format f) = some curr ∧
          (decode_into env f iter.fragment curr).1 = some px ∧
          anim.frames[j]? = some (some { curr with pixels := some px }) ∧
          anim.delays[j]? = some iter.duration)) ∧
    (∀ iter curr, env.WebPDemuxGetFrame (call_dmuxer env s) (i : Int) = some iter →
      SDL_CreateSurface env i f.width f.height (select_format f) = some curr →
      (decode_into env f iter.fragment curr).1 = none →
      ∃ anim, ( IMG_LoadWEBPAnimation_IO env (some s)).ret = some anim ∧
        ( IMG_LoadWEBPAnimation_IO env (some s)).error = none ∧
        anim.frames[i]? = some (some curr) ∧ anim.delays[i]? = some iter.duration ∧
        (∀ j, i < j → j < (call_count env s).toNat →
          anim.frames[j]? = some none ∧ anim.delays[j]? = some 0) ∧
        (∀ j, j < i → ∃ iter curr px,
          env.WebPDemuxGetFrame (call_dmuxer env s) (j : Int) = some iter ∧
          SDL_CreateSurface env j f.width f.height (select_format f) = some curr ∧
          (decode_into env f iter.fragment curr).1 = some px ∧
          anim.frames[j]? = some (some { curr with pixels := some px }) ∧
          anim.delays[j]? = some iter.duration)) := by
  obtain ⟨n, hn⟩ := call_frames_spec env s f
  have hunset : ∀ j, j < (call_count env s).toNat →
      (call_anim env s f).frames[j]? = some none ∧ (call_anim env s f).delays[j]? = some 0 := by
    intro j hj
    have := call_anim_slot env s f j
    rw [if_pos hj, if_pos hj] at this
    exact this
  constructor
  · intro hg
    have hat : frame_decodes env f (call_dmuxer env s) i = false := by
      simp [frame_decodes, hg]
    have hni := loop_stop_index env f _ _ _ _ _ n i hn hi hbefore hat
    subst hni
    have hfin : (call_frames env s f).is_finished = true := by
      cases hn.stop with
      | at_end h1 h2 => exact h2
      | fetch_failed h1 h2 h3 h4 h5 => exact h3
      | alloc_failed it h1 h2 h3 h4 h5 h6 =>
        rw [Nat.zero_add, hg] at h2
        exact Option.noConfusion h2
      | decode_failed it cu h1 h2 h3 h4 h5 h6 h7 => exact h5
    obtain ⟨hret, herr⟩ := reached_finished env s f hinit hm ha hr hf hfin
    refine ⟨_, hret, herr, ?_, ?_⟩
    · intro j hij hj
      rcases Nat.eq_or_lt_of_le hij with heq | hlt
      · subst heq
        cases hn.stop with
        | at_end h1 h2 => omega
        | fetch_failed h1 h2 h3 h4 h5 =>
          rw [Nat.zero_add] at h4 h5
          rw [h4, h5]
          exact hunset n hj
        | alloc_failed it h1 h2 h3 h4 h5 h6 =>
          rw [Nat.zero_add, hg] at h2
          exact Option.noConfusion h2
        | decode_failed it cu h1 h2 h3 h4 h5 h6 h7 =>
          rw [Nat.zero_add, hg] at h2
          exact Option.noConfusion h2
      · have := hn.untouched j (Or.inr (by omega))
        rw [this.1, this.2]
        exact hunset j hj
    · intro j hj
      exact hn.completed j (Nat.zero_le _) (by omega)
  · intro iter curr hg hc hd
    have hat : frame_decodes env f (call_dmuxer env s) i = false := by
      simp [frame_decodes, hg, hc, hd]
    have hni := loop_stop_index env f _ _ _ _ _ n i hn hi hbefore hat
    subst hni
    have hstop : (call_frames env s f).is_finished = true ∧
        (call_frames env s f).anim.frames[n]? = some (some curr) ∧
        (call_frames env s f).anim.delays[n]? = some iter.duration := by
      cases hn.stop with
      | at_end h1 h2 => omega
      | fetch_failed h1 h2 h3 h4 h5 =>
        rw [Nat.zero_add, hg] at h2
        exact Option.noConfusion h2
      | alloc_failed it h1 h2 h3 h4 h5 h6 =>
        rw [Nat.zero_add, hc] at h3
        exact Option.noConfusion h3
      | decode_failed it cu h1 h2 h3 h4 h5 h6 h7 =>
        rw [Nat.zero_add] at h2 h3 h6 h7
        rw [hg] at h2
        rw [hc] at h3
        cases h2
        cases h3
        exact ⟨h5, h6, h7⟩
    obtain ⟨hret, herr⟩ := reached_finished env s f hinit hm ha hr hf hstop.1
    refine ⟨_, hret, herr, hstop.2.1, hstop.2.2, ?_, ?_⟩
    · intro j hij hj
      have := hn.untouched j (Or.inr (by omega))
      rw [this.1, this.2]
      exact hunset j hj
    · intro j hj
      exact hn.completed j (Nat.zero_le _) (by omega)

/-- C10, amended, at work: when frame 1 cannot be fetched slots 1 and 2 stay
unset; when the decode of frame 1 returns `NULL` slot 1 holds the undecoded
surface and the delay 20, and slot 2 stays unset. -/
theorem frame_loop_early_stop_witness :
    (∃ anim, ( IMG_LoadWEBPAnimation_IO (env_fetch_fails_at 1)
        (some (sample_stream 32 5))).ret = some anim ∧
      ( IMG_LoadWEBPAnimation_IO (env_fetch_fails_at 1) (some (sample_stream 32 5))).error
        = none ∧
      anim.frames[1]? = some none ∧ anim.delays[1]? = some 0 ∧
      anim.frames[2]? = some none ∧ anim.delays[2]? = some 0) ∧
    (∃ anim, ( IMG_LoadWEBPAnimation_IO (env_decode_fails_at 1)
        (some (sample_stream 32 5))).ret = some anim ∧
      ( IMG_LoadWEBPAnimation_IO (env_decode_fails_at 1) (some (sample_stream 32 5))).error
        = none ∧
      anim.frames[1]? = some (some (sample_surface none)) ∧ anim.delays[1]? = some 20 ∧
      anim.frames[2]? = some none ∧ anim.delays[2]? = some 0) := by
  have hbefore (env : Env) (h0 : frame_decodes env ⟨2, 1, false⟩ (some ⟨1⟩) 0 = true) :
      ∀ j, j < 1 → frame_decodes env ⟨2, 1, false⟩ (some ⟨1⟩) j = true := by
    intro j hj
    obtain rfl : j = 0 := by omega
    exact h0
  constructor
  · obtain ⟨anim, h1, h2, h3, _⟩ :=
      (frame_loop_early_stop (env_fetch_fails_at 1) (sample_stream 32 5) ⟨2, 1, false⟩
        (by decide) (by decide) (by decide) (by decide) (by decide) 1 (by decide)
        (hbefore _ (by decide))).1 (by decide)
    exact ⟨anim, h1, h2, (h3 1 (by decide) (by decide)).1, (h3 1 (by decide) (by decide)).2,
      (h3 2 (by decide) (by decide)).1, (h3 2 (by decide) (by decide)).2⟩
  · obtain ⟨anim, h1, h2, h3, h4, h5, _⟩ :=
      (frame_loop_early_stop (env_decode_fails_at 1) (sample_stream 32 5) ⟨2, 1, false⟩
        (by decide) (by decide) (by decide) (by decide) (by decide) 1 (by decide)
        (hbefore _ (by decide))).2 ⟨[1], 20⟩ (sample_surface none) (by decide) (by decide)
        (by decide)
    exact ⟨anim, h1, h2, h3, h4, (h5 2 (by decide) (by decide)).1,
      (h5 2 (by decide) (by decide)).2⟩

/-! ## The reference count of the codec libraries -/

end IMG_webp
